import Mathlib

/-
Verification of the Rubik cube state model (backend/models/cube.py) and the
move-sequence utilities, scrambler and solver built on top of it
(backend/solvers/improved_solver.py).

Conventions of the shallow embedding:
* Facelet colors are single characters, exactly the Python color letters
  W Y G B R O (invalid colors such as X remain representable, as in Python).
* A cube state is a record with one 9-element sticker list per face; the
  Python dict-of-lists always has exactly the six keys U D F B R L, which the
  record makes structural.  The key-set check of `_is_valid_state` is thereby
  absorbed into the type; the remaining checks are modelled explicitly.
* Python reads `l[i]` are modelled by `nth` (getD with a default); all
  theorems are stated on states whose faces have their real length 9, where
  the two semantics agree.
* In-place mutation is modelled by explicit state passing; a Python method
  that can raise is modelled with an explicit success flag, `false` meaning
  the exception propagated to the caller and the field shows the state the
  caller observes afterwards (the source reverts to the pre-call state).
* `random.choice(lst)` is modelled by an oracle `g : Nat → Nat` consumed at a
  running counter: the element picked is `lst.getD (g k % lst.length) d`.
  Quantifying over `g` covers every behavior of the random source.
-/

/-- Facelet colors: single characters, as in the Python source. -/
abbrev Color := Char

/-- Cube state: the six face sticker lists (cube.py, `Cube.reset`). -/
structure CState where
  U : List Color
  D : List Color
  F : List Color
  B : List Color
  R : List Color
  L : List Color
deriving DecidableEq, Repr

/-- Reading facelet `i` of a face list; Python `face[i]` (total via default). -/
def nth (l : List Color) (i : Nat) : Color := l.getD i 'W'

/-- The solved configuration built by `Cube.reset`. -/
def solvedState : CState :=
  { U := List.replicate 9 'W', D := List.replicate 9 'Y', F := List.replicate 9 'G',
    B := List.replicate 9 'B', R := List.replicate 9 'R', L := List.replicate 9 'O' }

/-- The six legal sticker colors (`required_colors` in `_is_valid_state`). -/
def requiredColors : List Color := ['W', 'Y', 'G', 'B', 'R', 'O']

/-- Per-face check of `_is_valid_state`: 9 stickers, all of legal colors. -/
def faceOk (f : List Color) : Bool :=
  f.length == 9 && f.all (fun c => requiredColors.contains c)

/-- Number of stickers of color `c` across the whole state (the
`color_count` loop of `_is_valid_state`). -/
def colorCount (s : CState) (c : Color) : Nat :=
  s.U.count c + s.D.count c + s.F.count c + s.B.count c + s.R.count c + s.L.count c

/-- `Cube._is_valid_state`: structure of every face plus 9-per-color counts. -/
def isValidState (s : CState) : Bool :=
  faceOk s.U && faceOk s.D && faceOk s.F && faceOk s.B && faceOk s.R && faceOk s.L &&
    requiredColors.all (fun c => colorCount s c == 9)

/-- One face is uniform: every sticker equals the center sticker (index 4). -/
def faceUniform (f : List Color) : Bool := f.all (fun c => c == nth f 4)

/-- `Cube.is_solved`: first validates the state, then requires every face to
be uniformly its center color. -/
def isSolved (s : CState) : Bool :=
  isValidState s &&
    (faceUniform s.U && faceUniform s.D && faceUniform s.F && faceUniform s.B &&
      faceUniform s.R && faceUniform s.L)

/-- `Cube.rotate_face_clockwise` applied to one face list: assigns the nine
positions from a saved copy, exactly as the Python assignments do. -/
def rotateFaceCW (f : List Color) : List Color :=
  let temp := f
  ((((((((f.set 0 (nth temp 6)).set 1 (nth temp 3)).set 2 (nth temp 0)).set 3
    (nth temp 7)).set 4 (nth temp 4)).set 5 (nth temp 1)).set 6 (nth temp 8)).set 7
    (nth temp 5)).set 8 (nth temp 2)

/-- `Cube._move_U`: rotate U, then cycle the top rows F ← R ← B ← L ← F. -/
def moveU (s : CState) : CState :=
  let temp := [nth s.F 0, nth s.F 1, nth s.F 2]
  { s with
    U := rotateFaceCW s.U
    F := ((s.F.set 0 (nth s.R 0)).set 1 (nth s.R 1)).set 2 (nth s.R 2)
    R := ((s.R.set 0 (nth s.B 0)).set 1 (nth s.B 1)).set 2 (nth s.B 2)
    B := ((s.B.set 0 (nth s.L 0)).set 1 (nth s.L 1)).set 2 (nth s.L 2)
    L := ((s.L.set 0 (nth temp 0)).set 1 (nth temp 1)).set 2 (nth temp 2) }

/-- `Cube._move_D`: rotate D, then cycle the bottom rows F ← L ← B ← R ← F. -/
def moveD (s : CState) : CState :=
  let temp := [nth s.F 6, nth s.F 7, nth s.F 8]
  { s with
    D := rotateFaceCW s.D
    F := ((s.F.set 6 (nth s.L 6)).set 7 (nth s.L 7)).set 8 (nth s.L 8)
    L := ((s.L.set 6 (nth s.B 6)).set 7 (nth s.B 7)).set 8 (nth s.B 8)
    B := ((s.B.set 6 (nth s.R 6)).set 7 (nth s.R 7)).set 8 (nth s.R 8)
    R := ((s.R.set 6 (nth temp 0)).set 7 (nth temp 1)).set 8 (nth temp 2) }

/-- `Cube._move_R`: rotate R, then cycle the right columns with the
orientation reversals of the Back face spelled out as in the source. -/
def moveR (s : CState) : CState :=
  let temp := [nth s.F 2, nth s.F 5, nth s.F 8]
  { s with
    R := rotateFaceCW s.R
    F := ((s.F.set 2 (nth s.D 2)).set 5 (nth s.D 5)).set 8 (nth s.D 8)
    D := ((s.D.set 2 (nth s.B 6)).set 5 (nth s.B 3)).set 8 (nth s.B 0)
    B := ((s.B.set 6 (nth s.U 2)).set 3 (nth s.U 5)).set 0 (nth s.U 8)
    U := ((s.U.set 2 (nth temp 0)).set 5 (nth temp 1)).set 8 (nth temp 2) }

/-- `Cube._move_L`: rotate L, then cycle the left columns. -/
def moveL (s : CState) : CState :=
  let temp := [nth s.F 0, nth s.F 3, nth s.F 6]
  { s with
    L := rotateFaceCW s.L
    F := ((s.F.set 0 (nth s.U 0)).set 3 (nth s.U 3)).set 6 (nth s.U 6)
    U := ((s.U.set 0 (nth s.B 8)).set 3 (nth s.B 5)).set 6 (nth s.B 2)
    B := ((s.B.set 8 (nth s.D 0)).set 5 (nth s.D 3)).set 2 (nth s.D 6)
    D := ((s.D.set 0 (nth temp 0)).set 3 (nth temp 1)).set 6 (nth temp 2) }

/-- `Cube._move_F`: rotate F, then cycle the touching rows/columns of
U, L, D, R. -/
def moveF (s : CState) : CState :=
  let temp := [nth s.U 6, nth s.U 7, nth s.U 8]
  { s with
    F := rotateFaceCW s.F
    U := ((s.U.set 6 (nth s.L 8)).set 7 (nth s.L 5)).set 8 (nth s.L 2)
    L := ((s.L.set 2 (nth s.D 0)).set 5 (nth s.D 1)).set 8 (nth s.D 2)
    D := ((s.D.set 0 (nth s.R 6)).set 1 (nth s.R 3)).set 2 (nth s.R 0)
    R := ((s.R.set 0 (nth temp 0)).set 3 (nth temp 1)).set 6 (nth temp 2) }

/-- `Cube._move_B`: rotate B, then cycle the touching rows/columns of
U, R, D, L. -/
def moveB (s : CState) : CState :=
  let temp := [nth s.U 0, nth s.U 1, nth s.U 2]
  { s with
    B := rotateFaceCW s.B
    U := ((s.U.set 0 (nth s.R 2)).set 1 (nth s.R 5)).set 2 (nth s.R 8)
    R := ((s.R.set 2 (nth s.D 8)).set 5 (nth s.D 7)).set 8 (nth s.D 6)
    D := ((s.D.set 6 (nth s.L 0)).set 7 (nth s.L 3)).set 8 (nth s.L 6)
    L := ((s.L.set 0 (nth temp 2)).set 3 (nth temp 1)).set 6 (nth temp 0) }

/-- `Cube._move_U_prime` is literally three clockwise U turns in the source. -/
def moveUPrime (s : CState) : CState := moveU (moveU (moveU s))

/-- `Cube._move_D_prime`: three clockwise D turns. -/
def moveDPrime (s : CState) : CState := moveD (moveD (moveD s))

/-- `Cube._move_R_prime`: three clockwise R turns. -/
def moveRPrime (s : CState) : CState := moveR (moveR (moveR s))

/-- `Cube._move_L_prime`: three clockwise L turns. -/
def moveLPrime (s : CState) : CState := moveL (moveL (moveL s))

/-- `Cube._move_F_prime`: three clockwise F turns. -/
def moveFPrime (s : CState) : CState := moveF (moveF (moveF s))

/-- `Cube._move_B_prime`: three clockwise B turns. -/
def moveBPrime (s : CState) : CState := moveB (moveB (moveB s))

/-- The apostrophe character, written via its code point so that prime move
tokens can be built without apostrophe literals. -/
def primeChar : Char := Char.ofNat 39

/-- The one-character apostrophe string used to build prime move tokens. -/
def primeStr : String := String.singleton primeChar

/-- Token of the counterclockwise U move (the Python string `U` + prime). -/
def tUp : String := "U" ++ primeStr

/-- Token of the counterclockwise D move. -/
def tDp : String := "D" ++ primeStr

/-- Token of the counterclockwise R move. -/
def tRp : String := "R" ++ primeStr

/-- Token of the counterclockwise L move. -/
def tLp : String := "L" ++ primeStr

/-- Token of the counterclockwise F move. -/
def tFp : String := "F" ++ primeStr

/-- Token of the counterclockwise B move. -/
def tBp : String := "B" ++ primeStr

/-- The 18-token move alphabet, in the order of `all_moves` in
`Cube.scramble`. -/
def allMoves : List String :=
  ["U", tUp, "U2", "D", tDp, "D2", "R", tRp, "R2", "L", tLp, "L2",
   "F", tFp, "F2", "B", tBp, "B2"]

/-- The dispatch chain of `Cube.execute_move`: the state transformation a
token denotes, `none` for a token outside the alphabet (the `Unknown move`
ValueError branch; the initial emptiness check lands there as well). -/
def applyTok (t : String) (s : CState) : Option CState :=
  if t = "U" then some (moveU s)
  else if t = tUp then some (moveUPrime s)
  else if t = "U2" then some (moveU (moveU s))
  else if t = "D" then some (moveD s)
  else if t = tDp then some (moveDPrime s)
  else if t = "D2" then some (moveD (moveD s))
  else if t = "R" then some (moveR s)
  else if t = tRp then some (moveRPrime s)
  else if t = "R2" then some (moveR (moveR s))
  else if t = "L" then some (moveL s)
  else if t = tLp then some (moveLPrime s)
  else if t = "L2" then some (moveL (moveL s))
  else if t = "F" then some (moveF s)
  else if t = tFp then some (moveFPrime s)
  else if t = "F2" then some (moveF (moveF s))
  else if t = "B" then some (moveB s)
  else if t = tBp then some (moveBPrime s)
  else if t = "B2" then some (moveB (moveB s))
  else none

/-- A cube object: its state dict plus its `move_history` list. -/
structure Cube where
  state : CState
  history : List String
deriving DecidableEq, Repr

/-- A fresh cube as built by `Cube.__init__` / `reset`. -/
def freshCube : Cube := { state := solvedState, history := [] }

/-- `Cube.execute_move`: dispatch the token, validate the resulting state,
revert on failure.  The Bool is `true` iff no exception escaped; on `false`
the returned cube is what the caller observes (the source restores
`original_state` before re-raising, and appends to the history only after
successful validation). -/
def executeMove (c : Cube) (t : String) : Cube × Bool :=
  match applyTok t c.state with
  | none => (c, false)
  | some s2 =>
    if isValidState s2 then ({ state := s2, history := c.history ++ [t] }, true)
    else (c, false)

/-- Folding `execute_move` over a token list: the caller-visible cube after
attempting each move in order (failed moves leave the cube unchanged). -/
def applyTokens (c : Cube) (ts : List String) : Cube :=
  ts.foldl (fun c t => (executeMove c t).1) c

/-- The caller-visible state evolution of `execute_move` at the state level:
unknown tokens and validation failures leave the state as it was. -/
def applyTokC (t : String) (s : CState) : CState :=
  match applyTok t s with
  | none => s
  | some s2 => if isValidState s2 then s2 else s

/-- State-level fold of `applyTokC` over a token list. -/
def applyTokensState (ts : List String) (s : CState) : CState :=
  ts.foldl (fun s t => applyTokC t s) s

/-- Structural well-formedness: every face holds exactly 9 stickers.  This is
the part of `_is_valid_state` every move preserves mechanically. -/
def facesLen9 (s : CState) : Prop :=
  s.U.length = 9 ∧ s.D.length = 9 ∧ s.F.length = 9 ∧ s.B.length = 9 ∧
    s.R.length = 9 ∧ s.L.length = 9

/-- A 9-element list is literally a list of its nine entries. -/
theorem list_eq_nine (l : List Color) (h : l.length = 9) :
    ∃ c0 c1 c2 c3 c4 c5 c6 c7 c8, l = [c0, c1, c2, c3, c4, c5, c6, c7, c8] := by
  rcases l with _ | ⟨c0, _ | ⟨c1, _ | ⟨c2, _ | ⟨c3, _ | ⟨c4, _ | ⟨c5, _ | ⟨c6, _ |
    ⟨c7, _ | ⟨c8, _ | ⟨c9, t⟩⟩⟩⟩⟩⟩⟩⟩⟩⟩ <;> simp_all

/-- A structurally well-formed state is literally a record of 54 stickers. -/
theorem cstate_destruct (s : CState) (h : facesLen9 s) :
    ∃ u0 u1 u2 u3 u4 u5 u6 u7 u8 d0 d1 d2 d3 d4 d5 d6 d7 d8
      f0 f1 f2 f3 f4 f5 f6 f7 f8 b0 b1 b2 b3 b4 b5 b6 b7 b8
      r0 r1 r2 r3 r4 r5 r6 r7 r8 l0 l1 l2 l3 l4 l5 l6 l7 l8,
      s = { U := [u0, u1, u2, u3, u4, u5, u6, u7, u8],
            D := [d0, d1, d2, d3, d4, d5, d6, d7, d8],
            F := [f0, f1, f2, f3, f4, f5, f6, f7, f8],
            B := [b0, b1, b2, b3, b4, b5, b6, b7, b8],
            R := [r0, r1, r2, r3, r4, r5, r6, r7, r8],
            L := [l0, l1, l2, l3, l4, l5, l6, l7, l8] } := by
  obtain ⟨sU, sD, sF, sB, sR, sL⟩ := s
  obtain ⟨hu, hd, hf, hb, hr, hl⟩ := h
  obtain ⟨u0, u1, u2, u3, u4, u5, u6, u7, u8, rfl⟩ := list_eq_nine sU hu
  obtain ⟨d0, d1, d2, d3, d4, d5, d6, d7, d8, rfl⟩ := list_eq_nine sD hd
  obtain ⟨f0, f1, f2, f3, f4, f5, f6, f7, f8, rfl⟩ := list_eq_nine sF hf
  obtain ⟨b0, b1, b2, b3, b4, b5, b6, b7, b8, rfl⟩ := list_eq_nine sB hb
  obtain ⟨r0, r1, r2, r3, r4, r5, r6, r7, r8, rfl⟩ := list_eq_nine sR hr
  obtain ⟨l0, l1, l2, l3, l4, l5, l6, l7, l8, rfl⟩ := list_eq_nine sL hl
  exact ⟨u0, u1, u2, u3, u4, u5, u6, u7, u8, d0, d1, d2, d3, d4, d5, d6, d7, d8,
    f0, f1, f2, f3, f4, f5, f6, f7, f8, b0, b1, b2, b3, b4, b5, b6, b7, b8,
    r0, r1, r2, r3, r4, r5, r6, r7, r8, l0, l1, l2, l3, l4, l5, l6, l7, l8, rfl⟩

/-- All 54 stickers in face order, the flattening `_is_valid_state` counts. -/
def allFacelets (s : CState) : List Color :=
  s.U ++ (s.D ++ (s.F ++ (s.B ++ (s.R ++ s.L))))

/-- Reading a sticker list through an index table. -/
def readPerm (σ : List Nat) (l : List Color) : List Color :=
  σ.map (fun i => l.getD i 'W')

/-- Reading every index in order reproduces the list. -/
theorem map_getD_range (l : List Color) :
    (List.range l.length).map (fun i => l.getD i 'W') = l := by
  induction l with
  | nil => rfl
  | cons a t ih =>
    rw [List.length_cons, List.range_succ_eq_map, List.map_cons, List.map_map]
    refine congrArg (a :: ·) ?_
    rw [show ((fun i => (a :: t).getD i 'W') ∘ Nat.succ) = (fun i => t.getD i 'W') from
      funext fun i => rfl]
    exact ih

/-- Reading through a table that permutes the index range permutes the list. -/
theorem readPerm_perm (σ : List Nat) (l : List Color)
    (h : σ.Perm (List.range l.length)) : (readPerm σ l).Perm l := by
  have h2 : (readPerm σ l).Perm ((List.range l.length).map (fun i => l.getD i 'W')) :=
    h.map _
  rwa [map_getD_range] at h2

/-- A well-formed state flattens to 54 stickers. -/
theorem allFacelets_length (s : CState) (h : facesLen9 s) :
    (allFacelets s).length = 54 := by
  obtain ⟨hu, hd, hf, hb, hr, hl⟩ := h
  simp [allFacelets, hu, hd, hf, hb, hr, hl]

/-- Index table of `_move_U` (entry i: where new global sticker i came from;
global order U 0-8, D 9-17, F 18-26, B 27-35, R 36-44, L 45-53). -/
def sigU : List Nat :=
  [6, 3, 0, 7, 4, 1, 8, 5, 2, 9, 10, 11, 12, 13, 14, 15, 16, 17,
   36, 37, 38, 21, 22, 23, 24, 25, 26, 45, 46, 47, 30, 31, 32, 33, 34, 35,
   27, 28, 29, 39, 40, 41, 42, 43, 44, 18, 19, 20, 48, 49, 50, 51, 52, 53]

/-- Index table of `_move_D`. -/
def sigD : List Nat :=
  [0, 1, 2, 3, 4, 5, 6, 7, 8, 15, 12, 9, 16, 13, 10, 17, 14, 11,
   18, 19, 20, 21, 22, 23, 51, 52, 53, 27, 28, 29, 30, 31, 32, 42, 43, 44,
   36, 37, 38, 39, 40, 41, 24, 25, 26, 45, 46, 47, 48, 49, 50, 33, 34, 35]

/-- Index table of `_move_R`. -/
def sigR : List Nat :=
  [0, 1, 20, 3, 4, 23, 6, 7, 26, 9, 10, 33, 12, 13, 30, 15, 16, 27,
   18, 19, 11, 21, 22, 14, 24, 25, 17, 8, 28, 29, 5, 31, 32, 2, 34, 35,
   42, 39, 36, 43, 40, 37, 44, 41, 38, 45, 46, 47, 48, 49, 50, 51, 52, 53]

/-- Index table of `_move_L`. -/
def sigL : List Nat :=
  [35, 1, 2, 32, 4, 5, 29, 7, 8, 18, 10, 11, 21, 13, 14, 24, 16, 17,
   0, 19, 20, 3, 22, 23, 6, 25, 26, 27, 28, 15, 30, 31, 12, 33, 34, 9,
   36, 37, 38, 39, 40, 41, 42, 43, 44, 51, 48, 45, 52, 49, 46, 53, 50, 47]

/-- Index table of `_move_F`. -/
def sigF : List Nat :=
  [0, 1, 2, 3, 4, 5, 53, 50, 47, 42, 39, 36, 12, 13, 14, 15, 16, 17,
   24, 21, 18, 25, 22, 19, 26, 23, 20, 27, 28, 29, 30, 31, 32, 33, 34, 35,
   6, 37, 38, 7, 40, 41, 8, 43, 44, 45, 46, 9, 48, 49, 10, 51, 52, 11]

/-- Index table of `_move_B`. -/
def sigB : List Nat :=
  [38, 41, 44, 3, 4, 5, 6, 7, 8, 9, 10, 11, 12, 13, 14, 45, 48, 51,
   18, 19, 20, 21, 22, 23, 24, 25, 26, 33, 30, 27, 34, 31, 28, 35, 32, 29,
   36, 37, 17, 39, 40, 16, 42, 43, 15, 2, 46, 47, 1, 49, 50, 0, 52, 53]

/-- A move function is good when it preserves the face lengths and permutes
the 54 stickers. -/
def GoodMove (f : CState → CState) : Prop :=
  ∀ s, facesLen9 s → facesLen9 (f s) ∧ (allFacelets (f s)).Perm (allFacelets s)

/-- Packaged proof that a move reading through a 54-permutation table is good. -/
theorem goodMove_of_read (f : CState → CState) (σ : List Nat)
    (hread : ∀ s, facesLen9 s → allFacelets (f s) = readPerm σ (allFacelets s))
    (hwf : ∀ s, facesLen9 s → facesLen9 (f s))
    (hperm : σ.Perm (List.range 54)) : GoodMove f := by
  intro s hs
  refine ⟨hwf s hs, ?_⟩
  rw [hread s hs]
  refine readPerm_perm σ _ ?_
  rwa [allFacelets_length s hs]

/-- Composition of good moves is good. -/
theorem GoodMove.compGood {f g : CState → CState} (hf : GoodMove f) (hg : GoodMove g) :
    GoodMove (fun s => f (g s)) := by
  intro s hs
  obtain ⟨h1, p1⟩ := hg s hs
  obtain ⟨h2, p2⟩ := hf (g s) h1
  exact ⟨h2, p2.trans p1⟩

/-- The U move reads through `sigU`. -/
theorem moveU_read (s : CState) (h : facesLen9 s) :
    allFacelets (moveU s) = readPerm sigU (allFacelets s) := by
  obtain ⟨u0, u1, u2, u3, u4, u5, u6, u7, u8, d0, d1, d2, d3, d4, d5, d6, d7, d8,
    f0, f1, f2, f3, f4, f5, f6, f7, f8, b0, b1, b2, b3, b4, b5, b6, b7, b8,
    r0, r1, r2, r3, r4, r5, r6, r7, r8, l0, l1, l2, l3, l4, l5, l6, l7, l8, rfl⟩ :=
    cstate_destruct s h
  rfl

/-- The D move reads through `sigD`. -/
theorem moveD_read (s : CState) (h : facesLen9 s) :
    allFacelets (moveD s) = readPerm sigD (allFacelets s) := by
  obtain ⟨u0, u1, u2, u3, u4, u5, u6, u7, u8, d0, d1, d2, d3, d4, d5, d6, d7, d8,
    f0, f1, f2, f3, f4, f5, f6, f7, f8, b0, b1, b2, b3, b4, b5, b6, b7, b8,
    r0, r1, r2, r3, r4, r5, r6, r7, r8, l0, l1, l2, l3, l4, l5, l6, l7, l8, rfl⟩ :=
    cstate_destruct s h
  rfl

/-- The R move reads through `sigR`. -/
theorem moveR_read (s : CState) (h : facesLen9 s) :
    allFacelets (moveR s) = readPerm sigR (allFacelets s) := by
  obtain ⟨u0, u1, u2, u3, u4, u5, u6, u7, u8, d0, d1, d2, d3, d4, d5, d6, d7, d8,
    f0, f1, f2, f3, f4, f5, f6, f7, f8, b0, b1, b2, b3, b4, b5, b6, b7, b8,
    r0, r1, r2, r3, r4, r5, r6, r7, r8, l0, l1, l2, l3, l4, l5, l6, l7, l8, rfl⟩ :=
    cstate_destruct s h
  rfl

/-- The L move reads through `sigL`. -/
theorem moveL_read (s : CState) (h : facesLen9 s) :
    allFacelets (moveL s) = readPerm sigL (allFacelets s) := by
  obtain ⟨u0, u1, u2, u3, u4, u5, u6, u7, u8, d0, d1, d2, d3, d4, d5, d6, d7, d8,
    f0, f1, f2, f3, f4, f5, f6, f7, f8, b0, b1, b2, b3, b4, b5, b6, b7, b8,
    r0, r1, r2, r3, r4, r5, r6, r7, r8, l0, l1, l2, l3, l4, l5, l6, l7, l8, rfl⟩ :=
    cstate_destruct s h
  rfl

/-- The F move reads through `sigF`. -/
theorem moveF_read (s : CState) (h : facesLen9 s) :
    allFacelets (moveF s) = readPerm sigF (allFacelets s) := by
  obtain ⟨u0, u1, u2, u3, u4, u5, u6, u7, u8, d0, d1, d2, d3, d4, d5, d6, d7, d8,
    f0, f1, f2, f3, f4, f5, f6, f7, f8, b0, b1, b2, b3, b4, b5, b6, b7, b8,
    r0, r1, r2, r3, r4, r5, r6, r7, r8, l0, l1, l2, l3, l4, l5, l6, l7, l8, rfl⟩ :=
    cstate_destruct s h
  rfl

/-- The B move reads through `sigB`. -/
theorem moveB_read (s : CState) (h : facesLen9 s) :
    allFacelets (moveB s) = readPerm sigB (allFacelets s) := by
  obtain ⟨u0, u1, u2, u3, u4, u5, u6, u7, u8, d0, d1, d2, d3, d4, d5, d6, d7, d8,
    f0, f1, f2, f3, f4, f5, f6, f7, f8, b0, b1, b2, b3, b4, b5, b6, b7, b8,
    r0, r1, r2, r3, r4, r5, r6, r7, r8, l0, l1, l2, l3, l4, l5, l6, l7, l8, rfl⟩ :=
    cstate_destruct s h
  rfl

/-- Each base move keeps every face at 9 stickers. -/
theorem moveU_wf (s : CState) (h : facesLen9 s) : facesLen9 (moveU s) := by
  obtain ⟨hu, hd, hf, hb, hr, hl⟩ := h
  simp [moveU, rotateFaceCW, facesLen9, hu, hd, hf, hb, hr, hl]

/-- The D move keeps every face at 9 stickers. -/
theorem moveD_wf (s : CState) (h : facesLen9 s) : facesLen9 (moveD s) := by
  obtain ⟨hu, hd, hf, hb, hr, hl⟩ := h
  simp [moveD, rotateFaceCW, facesLen9, hu, hd, hf, hb, hr, hl]

/-- The R move keeps every face at 9 stickers. -/
theorem moveR_wf (s : CState) (h : facesLen9 s) : facesLen9 (moveR s) := by
  obtain ⟨hu, hd, hf, hb, hr, hl⟩ := h
  simp [moveR, rotateFaceCW, facesLen9, hu, hd, hf, hb, hr, hl]

/-- The L move keeps every face at 9 stickers. -/
theorem moveL_wf (s : CState) (h : facesLen9 s) : facesLen9 (moveL s) := by
  obtain ⟨hu, hd, hf, hb, hr, hl⟩ := h
  simp [moveL, rotateFaceCW, facesLen9, hu, hd, hf, hb, hr, hl]

/-- The F move keeps every face at 9 stickers. -/
theorem moveF_wf (s : CState) (h : facesLen9 s) : facesLen9 (moveF s) := by
  obtain ⟨hu, hd, hf, hb, hr, hl⟩ := h
  simp [moveF, rotateFaceCW, facesLen9, hu, hd, hf, hb, hr, hl]

/-- The B move keeps every face at 9 stickers. -/
theorem moveB_wf (s : CState) (h : facesLen9 s) : facesLen9 (moveB s) := by
  obtain ⟨hu, hd, hf, hb, hr, hl⟩ := h
  simp [moveB, rotateFaceCW, facesLen9, hu, hd, hf, hb, hr, hl]

/-- The U move is good. -/
theorem moveU_good : GoodMove moveU :=
  goodMove_of_read moveU sigU moveU_read moveU_wf (by decide)

/-- The D move is good. -/
theorem moveD_good : GoodMove moveD :=
  goodMove_of_read moveD sigD moveD_read moveD_wf (by decide)

/-- The R move is good. -/
theorem moveR_good : GoodMove moveR :=
  goodMove_of_read moveR sigR moveR_read moveR_wf (by decide)

/-- The L move is good. -/
theorem moveL_good : GoodMove moveL :=
  goodMove_of_read moveL sigL moveL_read moveL_wf (by decide)

/-- The F move is good. -/
theorem moveF_good : GoodMove moveF :=
  goodMove_of_read moveF sigF moveF_read moveF_wf (by decide)

/-- The B move is good. -/
theorem moveB_good : GoodMove moveB :=
  goodMove_of_read moveB sigB moveB_read moveB_wf (by decide)

/-- A valid state is structurally well-formed. -/
theorem valid_facesLen9 (s : CState) (h : isValidState s = true) : facesLen9 s := by
  simp only [isValidState, faceOk, Bool.and_eq_true, beq_iff_eq] at h
  exact ⟨h.1.1.1.1.1.1.1, h.1.1.1.1.1.2.1, h.1.1.1.1.2.1, h.1.1.1.2.1, h.1.1.2.1, h.1.2.1⟩

/-- The color count of `_is_valid_state` is the count over the flattening. -/
theorem count_allFacelets (s : CState) (c : Color) :
    (allFacelets s).count c = colorCount s c := by
  simp [allFacelets, List.count_append, colorCount]
  omega

/-- Unfolding of `_is_valid_state` into its three ingredients. -/
theorem isValidState_eq (s : CState) :
    isValidState s = true ↔
      facesLen9 s ∧ ((allFacelets s).all (fun c => requiredColors.contains c) = true) ∧
        ∀ c ∈ requiredColors, colorCount s c = 9 := by
  simp only [isValidState, faceOk, facesLen9, allFacelets, Bool.and_eq_true, beq_iff_eq,
    List.all_append, List.all_eq_true, beq_iff_eq]
  constructor
  · rintro ⟨⟨⟨⟨⟨⟨⟨hu1, hu2⟩, hd1, hd2⟩, hf1, hf2⟩, hb1, hb2⟩, hr1, hr2⟩, hl1, hl2⟩, hc⟩
    exact ⟨⟨hu1, hd1, hf1, hb1, hr1, hl1⟩, ⟨hu2, hd2, hf2, hb2, hr2, hl2⟩, hc⟩
  · rintro ⟨⟨hu1, hd1, hf1, hb1, hr1, hl1⟩, ⟨hu2, hd2, hf2, hb2, hr2, hl2⟩, hc⟩
    exact ⟨⟨⟨⟨⟨⟨⟨hu1, hu2⟩, hd1, hd2⟩, hf1, hf2⟩, hb1, hb2⟩, hr1, hr2⟩, hl1, hl2⟩, hc⟩

/-- A good move preserves `_is_valid_state`. -/
theorem valid_of_good {f : CState → CState} (hf : GoodMove f) (s : CState)
    (h : isValidState s = true) : isValidState (f s) = true := by
  have hlen := (valid_facesLen9 s h)
  obtain ⟨hwf, hperm⟩ := hf s hlen
  rw [isValidState_eq] at h ⊢
  obtain ⟨_, hall, hcnt⟩ := h
  refine ⟨hwf, ?_, ?_⟩
  · rw [List.all_eq_true] at hall ⊢
    intro x hx
    exact hall x (hperm.mem_iff.mp hx)
  · intro c hc
    rw [← count_allFacelets, hperm.count_eq, count_allFacelets]
    exact hcnt c hc

/-- The counterclockwise U move is good. -/
theorem moveUPrime_good : GoodMove moveUPrime := moveU_good.compGood (moveU_good.compGood moveU_good)

/-- The counterclockwise D move is good. -/
theorem moveDPrime_good : GoodMove moveDPrime := moveD_good.compGood (moveD_good.compGood moveD_good)

/-- The counterclockwise R move is good. -/
theorem moveRPrime_good : GoodMove moveRPrime := moveR_good.compGood (moveR_good.compGood moveR_good)

/-- The counterclockwise L move is good. -/
theorem moveLPrime_good : GoodMove moveLPrime := moveL_good.compGood (moveL_good.compGood moveL_good)

/-- The counterclockwise F move is good. -/
theorem moveFPrime_good : GoodMove moveFPrime := moveF_good.compGood (moveF_good.compGood moveF_good)

/-- The counterclockwise B move is good. -/
theorem moveBPrime_good : GoodMove moveBPrime := moveB_good.compGood (moveB_good.compGood moveB_good)

/-- Every alphabet token denotes a good transformation, and `applyTok` always
succeeds on it. -/
theorem applyTok_good (t : String) (ht : t ∈ allMoves) :
    ∃ f, GoodMove f ∧ ∀ s, applyTok t s = some (f s) := by
  simp only [allMoves, List.mem_cons, List.not_mem_nil, or_false] at ht
  rcases ht with rfl | rfl | rfl | rfl | rfl | rfl | rfl | rfl | rfl | rfl | rfl | rfl |
    rfl | rfl | rfl | rfl | rfl | rfl
  · exact ⟨moveU, moveU_good, fun s => rfl⟩
  · exact ⟨moveUPrime, moveUPrime_good, fun s => rfl⟩
  · exact ⟨fun s => moveU (moveU s), moveU_good.compGood moveU_good, fun s => rfl⟩
  · exact ⟨moveD, moveD_good, fun s => rfl⟩
  · exact ⟨moveDPrime, moveDPrime_good, fun s => rfl⟩
  · exact ⟨fun s => moveD (moveD s), moveD_good.compGood moveD_good, fun s => rfl⟩
  · exact ⟨moveR, moveR_good, fun s => rfl⟩
  · exact ⟨moveRPrime, moveRPrime_good, fun s => rfl⟩
  · exact ⟨fun s => moveR (moveR s), moveR_good.compGood moveR_good, fun s => rfl⟩
  · exact ⟨moveL, moveL_good, fun s => rfl⟩
  · exact ⟨moveLPrime, moveLPrime_good, fun s => rfl⟩
  · exact ⟨fun s => moveL (moveL s), moveL_good.compGood moveL_good, fun s => rfl⟩
  · exact ⟨moveF, moveF_good, fun s => rfl⟩
  · exact ⟨moveFPrime, moveFPrime_good, fun s => rfl⟩
  · exact ⟨fun s => moveF (moveF s), moveF_good.compGood moveF_good, fun s => rfl⟩
  · exact ⟨moveB, moveB_good, fun s => rfl⟩
  · exact ⟨moveBPrime, moveBPrime_good, fun s => rfl⟩
  · exact ⟨fun s => moveB (moveB s), moveB_good.compGood moveB_good, fun s => rfl⟩

/-- C2: for every valid state and every one of the 18 moves, executing the
move succeeds and yields a state that again satisfies the structural and
9-per-color invariants of `_is_valid_state`. -/
theorem c2_move_closure (s : CState) (h : isValidState s = true)
    (t : String) (ht : t ∈ allMoves) :
    ∃ s2, applyTok t s = some s2 ∧ isValidState s2 = true := by
  obtain ⟨f, hf, he⟩ := applyTok_good t ht
  exact ⟨f s, he s, valid_of_good hf s h⟩

/-- Witness for C2 at a concrete input: the R move on the solved state. -/
theorem c2_move_closure_witness :
    ∃ s2, applyTok "R" solvedState = some s2 ∧ isValidState s2 = true :=
  c2_move_closure solvedState (by decide) "R" (by decide)

/-- Literal form of the U move on a destructured state. -/
theorem moveU_lit (u0 u1 u2 u3 u4 u5 u6 u7 u8 d0 d1 d2 d3 d4 d5 d6 d7 d8 f0 f1 f2 f3 f4 f5 f6 f7 f8 b0 b1 b2 b3 b4 b5 b6 b7 b8 r0 r1 r2 r3 r4 r5 r6 r7 r8 l0 l1 l2 l3 l4 l5 l6 l7 l8 : Color) :
    moveU { U := [u0, u1, u2, u3, u4, u5, u6, u7, u8], D := [d0, d1, d2, d3, d4, d5, d6, d7, d8], F := [f0, f1, f2, f3, f4, f5, f6, f7, f8], B := [b0, b1, b2, b3, b4, b5, b6, b7, b8], R := [r0, r1, r2, r3, r4, r5, r6, r7, r8], L := [l0, l1, l2, l3, l4, l5, l6, l7, l8] } = { U := [u6, u3, u0, u7, u4, u1, u8, u5, u2], D := [d0, d1, d2, d3, d4, d5, d6, d7, d8], F := [r0, r1, r2, f3, f4, f5, f6, f7, f8], B := [l0, l1, l2, b3, b4, b5, b6, b7, b8], R := [b0, b1, b2, r3, r4, r5, r6, r7, r8], L := [f0, f1, f2, l3, l4, l5, l6, l7, l8] } := rfl

/-- Literal form of the D move on a destructured state. -/
theorem moveD_lit (u0 u1 u2 u3 u4 u5 u6 u7 u8 d0 d1 d2 d3 d4 d5 d6 d7 d8 f0 f1 f2 f3 f4 f5 f6 f7 f8 b0 b1 b2 b3 b4 b5 b6 b7 b8 r0 r1 r2 r3 r4 r5 r6 r7 r8 l0 l1 l2 l3 l4 l5 l6 l7 l8 : Color) :
    moveD { U := [u0, u1, u2, u3, u4, u5, u6, u7, u8], D := [d0, d1, d2, d3, d4, d5, d6, d7, d8], F := [f0, f1, f2, f3, f4, f5, f6, f7, f8], B := [b0, b1, b2, b3, b4, b5, b6, b7, b8], R := [r0, r1, r2, r3, r4, r5, r6, r7, r8], L := [l0, l1, l2, l3, l4, l5, l6, l7, l8] } = { U := [u0, u1, u2, u3, u4, u5, u6, u7, u8], D := [d6, d3, d0, d7, d4, d1, d8, d5, d2], F := [f0, f1, f2, f3, f4, f5, l6, l7, l8], B := [b0, b1, b2, b3, b4, b5, r6, r7, r8], R := [r0, r1, r2, r3, r4, r5, f6, f7, f8], L := [l0, l1, l2, l3, l4, l5, b6, b7, b8] } := rfl

/-- Literal form of the F move on a destructured state. -/
theorem moveF_lit (u0 u1 u2 u3 u4 u5 u6 u7 u8 d0 d1 d2 d3 d4 d5 d6 d7 d8 f0 f1 f2 f3 f4 f5 f6 f7 f8 b0 b1 b2 b3 b4 b5 b6 b7 b8 r0 r1 r2 r3 r4 r5 r6 r7 r8 l0 l1 l2 l3 l4 l5 l6 l7 l8 : Color) :
    moveF { U := [u0, u1, u2, u3, u4, u5, u6, u7, u8], D := [d0, d1, d2, d3, d4, d5, d6, d7, d8], F := [f0, f1, f2, f3, f4, f5, f6, f7, f8], B := [b0, b1, b2, b3, b4, b5, b6, b7, b8], R := [r0, r1, r2, r3, r4, r5, r6, r7, r8], L := [l0, l1, l2, l3, l4, l5, l6, l7, l8] } = { U := [u0, u1, u2, u3, u4, u5, l8, l5, l2], D := [r6, r3, r0, d3, d4, d5, d6, d7, d8], F := [f6, f3, f0, f7, f4, f1, f8, f5, f2], B := [b0, b1, b2, b3, b4, b5, b6, b7, b8], R := [u6, r1, r2, u7, r4, r5, u8, r7, r8], L := [l0, l1, d0, l3, l4, d1, l6, l7, d2] } := rfl

/-- Literal form of the B move on a destructured state. -/
theorem moveB_lit (u0 u1 u2 u3 u4 u5 u6 u7 u8 d0 d1 d2 d3 d4 d5 d6 d7 d8 f0 f1 f2 f3 f4 f5 f6 f7 f8 b0 b1 b2 b3 b4 b5 b6 b7 b8 r0 r1 r2 r3 r4 r5 r6 r7 r8 l0 l1 l2 l3 l4 l5 l6 l7 l8 : Color) :
    moveB { U := [u0, u1, u2, u3, u4, u5, u6, u7, u8], D := [d0, d1, d2, d3, d4, d5, d6, d7, d8], F := [f0, f1, f2, f3, f4, f5, f6, f7, f8], B := [b0, b1, b2, b3, b4, b5, b6, b7, b8], R := [r0, r1, r2, r3, r4, r5, r6, r7, r8], L := [l0, l1, l2, l3, l4, l5, l6, l7, l8] } = { U := [r2, r5, r8, u3, u4, u5, u6, u7, u8], D := [d0, d1, d2, d3, d4, d5, l0, l3, l6], F := [f0, f1, f2, f3, f4, f5, f6, f7, f8], B := [b6, b3, b0, b7, b4, b1, b8, b5, b2], R := [r0, r1, d8, r3, r4, d7, r6, r7, d6], L := [u2, l1, l2, u1, l4, l5, u0, l7, l8] } := rfl

/-- Literal form of the R move on a destructured state. -/
theorem moveR_lit (u0 u1 u2 u3 u4 u5 u6 u7 u8 d0 d1 d2 d3 d4 d5 d6 d7 d8 f0 f1 f2 f3 f4 f5 f6 f7 f8 b0 b1 b2 b3 b4 b5 b6 b7 b8 r0 r1 r2 r3 r4 r5 r6 r7 r8 l0 l1 l2 l3 l4 l5 l6 l7 l8 : Color) :
    moveR { U := [u0, u1, u2, u3, u4, u5, u6, u7, u8], D := [d0, d1, d2, d3, d4, d5, d6, d7, d8], F := [f0, f1, f2, f3, f4, f5, f6, f7, f8], B := [b0, b1, b2, b3, b4, b5, b6, b7, b8], R := [r0, r1, r2, r3, r4, r5, r6, r7, r8], L := [l0, l1, l2, l3, l4, l5, l6, l7, l8] } = { U := [u0, u1, f2, u3, u4, f5, u6, u7, f8], D := [d0, d1, b6, d3, d4, b3, d6, d7, b0], F := [f0, f1, d2, f3, f4, d5, f6, f7, d8], B := [u8, b1, b2, u5, b4, b5, u2, b7, b8], R := [r6, r3, r0, r7, r4, r1, r8, r5, r2], L := [l0, l1, l2, l3, l4, l5, l6, l7, l8] } := rfl

/-- Literal form of the L move on a destructured state. -/
theorem moveL_lit (u0 u1 u2 u3 u4 u5 u6 u7 u8 d0 d1 d2 d3 d4 d5 d6 d7 d8 f0 f1 f2 f3 f4 f5 f6 f7 f8 b0 b1 b2 b3 b4 b5 b6 b7 b8 r0 r1 r2 r3 r4 r5 r6 r7 r8 l0 l1 l2 l3 l4 l5 l6 l7 l8 : Color) :
    moveL { U := [u0, u1, u2, u3, u4, u5, u6, u7, u8], D := [d0, d1, d2, d3, d4, d5, d6, d7, d8], F := [f0, f1, f2, f3, f4, f5, f6, f7, f8], B := [b0, b1, b2, b3, b4, b5, b6, b7, b8], R := [r0, r1, r2, r3, r4, r5, r6, r7, r8], L := [l0, l1, l2, l3, l4, l5, l6, l7, l8] } = { U := [b8, u1, u2, b5, u4, u5, b2, u7, u8], D := [f0, d1, d2, f3, d4, d5, f6, d7, d8], F := [u0, f1, f2, u3, f4, f5, u6, f7, f8], B := [b0, b1, d6, b3, b4, d3, b6, b7, d0], R := [r0, r1, r2, r3, r4, r5, r6, r7, r8], L := [l6, l3, l0, l7, l4, l1, l8, l5, l2] } := rfl

/-- Four clockwise U turns restore any well-formed state. -/
theorem moveU_pow4 (s : CState) (h : facesLen9 s) :
    moveU (moveU (moveU (moveU s))) = s := by
  obtain ⟨u0, u1, u2, u3, u4, u5, u6, u7, u8, d0, d1, d2, d3, d4, d5, d6, d7, d8,
    f0, f1, f2, f3, f4, f5, f6, f7, f8, b0, b1, b2, b3, b4, b5, b6, b7, b8,
    r0, r1, r2, r3, r4, r5, r6, r7, r8, l0, l1, l2, l3, l4, l5, l6, l7, l8, rfl⟩ :=
    cstate_destruct s h
  rw [moveU_lit, moveU_lit, moveU_lit, moveU_lit]

/-- Four clockwise D turns restore any well-formed state. -/
theorem moveD_pow4 (s : CState) (h : facesLen9 s) :
    moveD (moveD (moveD (moveD s))) = s := by
  obtain ⟨u0, u1, u2, u3, u4, u5, u6, u7, u8, d0, d1, d2, d3, d4, d5, d6, d7, d8,
    f0, f1, f2, f3, f4, f5, f6, f7, f8, b0, b1, b2, b3, b4, b5, b6, b7, b8,
    r0, r1, r2, r3, r4, r5, r6, r7, r8, l0, l1, l2, l3, l4, l5, l6, l7, l8, rfl⟩ :=
    cstate_destruct s h
  rw [moveD_lit, moveD_lit, moveD_lit, moveD_lit]

/-- Four clockwise F turns restore any well-formed state. -/
theorem moveF_pow4 (s : CState) (h : facesLen9 s) :
    moveF (moveF (moveF (moveF s))) = s := by
  obtain ⟨u0, u1, u2, u3, u4, u5, u6, u7, u8, d0, d1, d2, d3, d4, d5, d6, d7, d8,
    f0, f1, f2, f3, f4, f5, f6, f7, f8, b0, b1, b2, b3, b4, b5, b6, b7, b8,
    r0, r1, r2, r3, r4, r5, r6, r7, r8, l0, l1, l2, l3, l4, l5, l6, l7, l8, rfl⟩ :=
    cstate_destruct s h
  rw [moveF_lit, moveF_lit, moveF_lit, moveF_lit]

/-- Four clockwise B turns restore any well-formed state. -/
theorem moveB_pow4 (s : CState) (h : facesLen9 s) :
    moveB (moveB (moveB (moveB s))) = s := by
  obtain ⟨u0, u1, u2, u3, u4, u5, u6, u7, u8, d0, d1, d2, d3, d4, d5, d6, d7, d8,
    f0, f1, f2, f3, f4, f5, f6, f7, f8, b0, b1, b2, b3, b4, b5, b6, b7, b8,
    r0, r1, r2, r3, r4, r5, r6, r7, r8, l0, l1, l2, l3, l4, l5, l6, l7, l8, rfl⟩ :=
    cstate_destruct s h
  rw [moveB_lit, moveB_lit, moveB_lit, moveB_lit]

/-- Four clockwise R turns restore any well-formed state. -/
theorem moveR_pow4 (s : CState) (h : facesLen9 s) :
    moveR (moveR (moveR (moveR s))) = s := by
  obtain ⟨u0, u1, u2, u3, u4, u5, u6, u7, u8, d0, d1, d2, d3, d4, d5, d6, d7, d8,
    f0, f1, f2, f3, f4, f5, f6, f7, f8, b0, b1, b2, b3, b4, b5, b6, b7, b8,
    r0, r1, r2, r3, r4, r5, r6, r7, r8, l0, l1, l2, l3, l4, l5, l6, l7, l8, rfl⟩ :=
    cstate_destruct s h
  rw [moveR_lit, moveR_lit, moveR_lit, moveR_lit]

/-- Four clockwise L turns restore any well-formed state. -/
theorem moveL_pow4 (s : CState) (h : facesLen9 s) :
    moveL (moveL (moveL (moveL s))) = s := by
  obtain ⟨u0, u1, u2, u3, u4, u5, u6, u7, u8, d0, d1, d2, d3, d4, d5, d6, d7, d8,
    f0, f1, f2, f3, f4, f5, f6, f7, f8, b0, b1, b2, b3, b4, b5, b6, b7, b8,
    r0, r1, r2, r3, r4, r5, r6, r7, r8, l0, l1, l2, l3, l4, l5, l6, l7, l8, rfl⟩ :=
    cstate_destruct s h
  rw [moveL_lit, moveL_lit, moveL_lit, moveL_lit]

/-- Inverse of a move token (X ↔ X-prime, X2 ↔ X2): the documented move
inverse used to state the group-identity property. -/
def invTok (t : String) : String :=
  if t = "U" then tUp else if t = tUp then "U" else
  if t = "D" then tDp else if t = tDp then "D" else
  if t = "R" then tRp else if t = tRp then "R" else
  if t = "L" then tLp else if t = tLp then "L" else
  if t = "F" then tFp else if t = tFp then "F" else
  if t = "B" then tBp else if t = tBp then "B" else t

/-- Evaluation rule for `applyTokC` when the move applies and validates. -/
theorem applyTokC_of_some {t : String} {s s2 : CState}
    (he : applyTok t s = some s2) (hv : isValidState s2 = true) :
    applyTokC t s = s2 := by
  simp [applyTokC, he, hv]

/-- Applying a token and then a cancelling token restores the state. -/
theorem tokC_inv_cancel {t t' : String} {f g : CState → CState}
    (hf : GoodMove f) (hg : GoodMove g)
    (he : applyTok t s = some (f s)) (he' : applyTok t' (f s) = some (g (f s)))
    (h : isValidState s = true) (hcancel : g (f s) = s) :
    applyTokC t' (applyTokC t s) = s := by
  have v1 := valid_of_good hf s h
  have h1 := applyTokC_of_some he v1
  have h2 := applyTokC_of_some he' (valid_of_good hg (f s) v1)
  rw [h1, h2, hcancel]

/-- A base token applied four times restores the state, and applied twice
matches the double token, at the level of `execute_move` semantics. -/
theorem tokC_four {b : String} {f : CState → CState} (hf : GoodMove f)
    (he : ∀ s, applyTok b s = some (f s))
    (he2 : ∀ s, applyTok (b ++ "2") s = some (f (f s)))
    (s : CState) (h : isValidState s = true) (hpow : f (f (f (f s))) = s) :
    applyTokC b (applyTokC b (applyTokC b (applyTokC b s))) = s ∧
      applyTokC b (applyTokC b s) = applyTokC (b ++ "2") s := by
  have v1 := valid_of_good hf s h
  have v2 := valid_of_good hf _ v1
  have v3 := valid_of_good hf _ v2
  have v4 := valid_of_good hf _ v3
  have e1 := applyTokC_of_some (he s) v1
  have e2 := applyTokC_of_some (he (f s)) v2
  have e3 := applyTokC_of_some (he (f (f s))) v3
  have e4 := applyTokC_of_some (he (f (f (f s)))) v4
  have e5 := applyTokC_of_some (he2 s) v2
  constructor
  · rw [e1, e2, e3, e4, hpow]
  · rw [e1, e2, e5]

/-- C3: on any valid state, every one of the 18 moves followed by its inverse
(X with X-prime, X2 with itself) restores the state facelet for facelet; each
base clockwise move applied four times restores the state, and applied twice
it produces exactly the effect of the corresponding double move. -/
theorem c3_inverse_and_order (s : CState) (h : isValidState s = true) :
    (∀ t ∈ allMoves, applyTokC (invTok t) (applyTokC t s) = s) ∧
    (∀ b ∈ (["U", "D", "R", "L", "F", "B"] : List String),
      applyTokC b (applyTokC b (applyTokC b (applyTokC b s))) = s ∧
        applyTokC b (applyTokC b s) = applyTokC (b ++ "2") s) := by
  have hl := valid_facesLen9 s h
  constructor
  · intro t ht
    simp only [allMoves, List.mem_cons, List.not_mem_nil, or_false] at ht
    rcases ht with rfl | rfl | rfl | rfl | rfl | rfl | rfl | rfl | rfl | rfl | rfl | rfl |
      rfl | rfl | rfl | rfl | rfl | rfl
    · exact tokC_inv_cancel moveU_good moveUPrime_good rfl rfl h (moveU_pow4 s hl)
    · exact tokC_inv_cancel moveUPrime_good moveU_good rfl rfl h (moveU_pow4 s hl)
    · exact tokC_inv_cancel (moveU_good.compGood moveU_good) (moveU_good.compGood moveU_good) rfl rfl h (moveU_pow4 s hl)
    · exact tokC_inv_cancel moveD_good moveDPrime_good rfl rfl h (moveD_pow4 s hl)
    · exact tokC_inv_cancel moveDPrime_good moveD_good rfl rfl h (moveD_pow4 s hl)
    · exact tokC_inv_cancel (moveD_good.compGood moveD_good) (moveD_good.compGood moveD_good) rfl rfl h (moveD_pow4 s hl)
    · exact tokC_inv_cancel moveR_good moveRPrime_good rfl rfl h (moveR_pow4 s hl)
    · exact tokC_inv_cancel moveRPrime_good moveR_good rfl rfl h (moveR_pow4 s hl)
    · exact tokC_inv_cancel (moveR_good.compGood moveR_good) (moveR_good.compGood moveR_good) rfl rfl h (moveR_pow4 s hl)
    · exact tokC_inv_cancel moveL_good moveLPrime_good rfl rfl h (moveL_pow4 s hl)
    · exact tokC_inv_cancel moveLPrime_good moveL_good rfl rfl h (moveL_pow4 s hl)
    · exact tokC_inv_cancel (moveL_good.compGood moveL_good) (moveL_good.compGood moveL_good) rfl rfl h (moveL_pow4 s hl)
    · exact tokC_inv_cancel moveF_good moveFPrime_good rfl rfl h (moveF_pow4 s hl)
    · exact tokC_inv_cancel moveFPrime_good moveF_good rfl rfl h (moveF_pow4 s hl)
    · exact tokC_inv_cancel (moveF_good.compGood moveF_good) (moveF_good.compGood moveF_good) rfl rfl h (moveF_pow4 s hl)
    · exact tokC_inv_cancel moveB_good moveBPrime_good rfl rfl h (moveB_pow4 s hl)
    · exact tokC_inv_cancel moveBPrime_good moveB_good rfl rfl h (moveB_pow4 s hl)
    · exact tokC_inv_cancel (moveB_good.compGood moveB_good) (moveB_good.compGood moveB_good) rfl rfl h (moveB_pow4 s hl)
  · intro b hb
    simp only [List.mem_cons, List.not_mem_nil, or_false] at hb
    rcases hb with rfl | rfl | rfl | rfl | rfl | rfl
    · exact tokC_four (b := "U") moveU_good (fun s => rfl) (fun s => rfl) s h (moveU_pow4 s hl)
    · exact tokC_four (b := "D") moveD_good (fun s => rfl) (fun s => rfl) s h (moveD_pow4 s hl)
    · exact tokC_four (b := "R") moveR_good (fun s => rfl) (fun s => rfl) s h (moveR_pow4 s hl)
    · exact tokC_four (b := "L") moveL_good (fun s => rfl) (fun s => rfl) s h (moveL_pow4 s hl)
    · exact tokC_four (b := "F") moveF_good (fun s => rfl) (fun s => rfl) s h (moveF_pow4 s hl)
    · exact tokC_four (b := "B") moveB_good (fun s => rfl) (fun s => rfl) s h (moveB_pow4 s hl)

/-- Witness for C3 at a concrete input: R then R-prime on the solved state. -/
theorem c3_inverse_and_order_witness :
    applyTokC (invTok "R") (applyTokC "R" solvedState) = solvedState :=
  (c3_inverse_and_order solvedState (by decide)).1 "R" (by decide)

/-- A move function fixes the six center stickers (index 4 of every face). -/
def CentersFixed (f : CState → CState) : Prop :=
  ∀ s, facesLen9 s →
    nth (f s).U 4 = nth s.U 4 ∧ nth (f s).D 4 = nth s.D 4 ∧ nth (f s).F 4 = nth s.F 4 ∧
      nth (f s).B 4 = nth s.B 4 ∧ nth (f s).R 4 = nth s.R 4 ∧ nth (f s).L 4 = nth s.L 4

/-- Center fixing composes along moves that keep states well-formed. -/
theorem CentersFixed.compCenters {f g : CState → CState} (hfc : CentersFixed f)
    (hgc : CentersFixed g) (hgw : ∀ s, facesLen9 s → facesLen9 (g s)) :
    CentersFixed (fun s => f (g s)) := by
  intro s hs
  obtain ⟨g1, g2, g3, g4, g5, g6⟩ := hgc s hs
  obtain ⟨f1, f2, f3, f4, f5, f6⟩ := hfc (g s) (hgw s hs)
  exact ⟨f1.trans g1, f2.trans g2, f3.trans g3, f4.trans g4, f5.trans g5, f6.trans g6⟩

/-- The U move fixes all six centers. -/
theorem moveU_centers : CentersFixed moveU := by
  intro s hs
  obtain ⟨u0, u1, u2, u3, u4, u5, u6, u7, u8, d0, d1, d2, d3, d4, d5, d6, d7, d8,
    f0, f1, f2, f3, f4, f5, f6, f7, f8, b0, b1, b2, b3, b4, b5, b6, b7, b8,
    r0, r1, r2, r3, r4, r5, r6, r7, r8, l0, l1, l2, l3, l4, l5, l6, l7, l8, rfl⟩ :=
    cstate_destruct s hs
  exact ⟨rfl, rfl, rfl, rfl, rfl, rfl⟩

/-- The D move fixes all six centers. -/
theorem moveD_centers : CentersFixed moveD := by
  intro s hs
  obtain ⟨u0, u1, u2, u3, u4, u5, u6, u7, u8, d0, d1, d2, d3, d4, d5, d6, d7, d8,
    f0, f1, f2, f3, f4, f5, f6, f7, f8, b0, b1, b2, b3, b4, b5, b6, b7, b8,
    r0, r1, r2, r3, r4, r5, r6, r7, r8, l0, l1, l2, l3, l4, l5, l6, l7, l8, rfl⟩ :=
    cstate_destruct s hs
  exact ⟨rfl, rfl, rfl, rfl, rfl, rfl⟩

/-- The R move fixes all six centers. -/
theorem moveR_centers : CentersFixed moveR := by
  intro s hs
  obtain ⟨u0, u1, u2, u3, u4, u5, u6, u7, u8, d0, d1, d2, d3, d4, d5, d6, d7, d8,
    f0, f1, f2, f3, f4, f5, f6, f7, f8, b0, b1, b2, b3, b4, b5, b6, b7, b8,
    r0, r1, r2, r3, r4, r5, r6, r7, r8, l0, l1, l2, l3, l4, l5, l6, l7, l8, rfl⟩ :=
    cstate_destruct s hs
  exact ⟨rfl, rfl, rfl, rfl, rfl, rfl⟩

/-- The L move fixes all six centers. -/
theorem moveL_centers : CentersFixed moveL := by
  intro s hs
  obtain ⟨u0, u1, u2, u3, u4, u5, u6, u7, u8, d0, d1, d2, d3, d4, d5, d6, d7, d8,
    f0, f1, f2, f3, f4, f5, f6, f7, f8, b0, b1, b2, b3, b4, b5, b6, b7, b8,
    r0, r1, r2, r3, r4, r5, r6, r7, r8, l0, l1, l2, l3, l4, l5, l6, l7, l8, rfl⟩ :=
    cstate_destruct s hs
  exact ⟨rfl, rfl, rfl, rfl, rfl, rfl⟩

/-- The F move fixes all six centers. -/
theorem moveF_centers : CentersFixed moveF := by
  intro s hs
  obtain ⟨u0, u1, u2, u3, u4, u5, u6, u7, u8, d0, d1, d2, d3, d4, d5, d6, d7, d8,
    f0, f1, f2, f3, f4, f5, f6, f7, f8, b0, b1, b2, b3, b4, b5, b6, b7, b8,
    r0, r1, r2, r3, r4, r5, r6, r7, r8, l0, l1, l2, l3, l4, l5, l6, l7, l8, rfl⟩ :=
    cstate_destruct s hs
  exact ⟨rfl, rfl, rfl, rfl, rfl, rfl⟩

/-- The B move fixes all six centers. -/
theorem moveB_centers : CentersFixed moveB := by
  intro s hs
  obtain ⟨u0, u1, u2, u3, u4, u5, u6, u7, u8, d0, d1, d2, d3, d4, d5, d6, d7, d8,
    f0, f1, f2, f3, f4, f5, f6, f7, f8, b0, b1, b2, b3, b4, b5, b6, b7, b8,
    r0, r1, r2, r3, r4, r5, r6, r7, r8, l0, l1, l2, l3, l4, l5, l6, l7, l8, rfl⟩ :=
    cstate_destruct s hs
  exact ⟨rfl, rfl, rfl, rfl, rfl, rfl⟩

/-- Every alphabet token denotes a transformation fixing all six centers. -/
theorem applyTok_centers (t : String) (ht : t ∈ allMoves) :
    ∃ f, CentersFixed f ∧ ∀ s, applyTok t s = some (f s) := by
  simp only [allMoves, List.mem_cons, List.not_mem_nil, or_false] at ht
  rcases ht with rfl | rfl | rfl | rfl | rfl | rfl | rfl | rfl | rfl | rfl | rfl | rfl |
    rfl | rfl | rfl | rfl | rfl | rfl
  · exact ⟨moveU, moveU_centers, fun s => rfl⟩
  · exact ⟨moveUPrime, (moveU_centers.compCenters (moveU_centers.compCenters moveU_centers moveU_wf) (fun s hs => moveU_wf _ (moveU_wf s hs))), fun s => rfl⟩
  · exact ⟨fun s => moveU (moveU s), (moveU_centers.compCenters moveU_centers moveU_wf), fun s => rfl⟩
  · exact ⟨moveD, moveD_centers, fun s => rfl⟩
  · exact ⟨moveDPrime, (moveD_centers.compCenters (moveD_centers.compCenters moveD_centers moveD_wf) (fun s hs => moveD_wf _ (moveD_wf s hs))), fun s => rfl⟩
  · exact ⟨fun s => moveD (moveD s), (moveD_centers.compCenters moveD_centers moveD_wf), fun s => rfl⟩
  · exact ⟨moveR, moveR_centers, fun s => rfl⟩
  · exact ⟨moveRPrime, (moveR_centers.compCenters (moveR_centers.compCenters moveR_centers moveR_wf) (fun s hs => moveR_wf _ (moveR_wf s hs))), fun s => rfl⟩
  · exact ⟨fun s => moveR (moveR s), (moveR_centers.compCenters moveR_centers moveR_wf), fun s => rfl⟩
  · exact ⟨moveL, moveL_centers, fun s => rfl⟩
  · exact ⟨moveLPrime, (moveL_centers.compCenters (moveL_centers.compCenters moveL_centers moveL_wf) (fun s hs => moveL_wf _ (moveL_wf s hs))), fun s => rfl⟩
  · exact ⟨fun s => moveL (moveL s), (moveL_centers.compCenters moveL_centers moveL_wf), fun s => rfl⟩
  · exact ⟨moveF, moveF_centers, fun s => rfl⟩
  · exact ⟨moveFPrime, (moveF_centers.compCenters (moveF_centers.compCenters moveF_centers moveF_wf) (fun s hs => moveF_wf _ (moveF_wf s hs))), fun s => rfl⟩
  · exact ⟨fun s => moveF (moveF s), (moveF_centers.compCenters moveF_centers moveF_wf), fun s => rfl⟩
  · exact ⟨moveB, moveB_centers, fun s => rfl⟩
  · exact ⟨moveBPrime, (moveB_centers.compCenters (moveB_centers.compCenters moveB_centers moveB_wf) (fun s hs => moveB_wf _ (moveB_wf s hs))), fun s => rfl⟩
  · exact ⟨fun s => moveB (moveB s), (moveB_centers.compCenters moveB_centers moveB_wf), fun s => rfl⟩

/-- C6: no move of the 18-token alphabet ever changes the center sticker
(index 4) of any face of a valid state. -/
theorem c6_centers_never_change (s : CState) (h : isValidState s = true)
    (t : String) (ht : t ∈ allMoves) (s2 : CState) (he : applyTok t s = some s2) :
    nth s2.U 4 = nth s.U 4 ∧ nth s2.D 4 = nth s.D 4 ∧ nth s2.F 4 = nth s.F 4 ∧
      nth s2.B 4 = nth s.B 4 ∧ nth s2.R 4 = nth s.R 4 ∧ nth s2.L 4 = nth s.L 4 := by
  obtain ⟨f, hc, he2⟩ := applyTok_centers t ht
  have h2 : s2 = f s := by
    have := (he2 s).symm.trans he
    exact (Option.some.inj this).symm
  subst h2
  exact hc s (valid_facesLen9 s h)

/-- Witness for C6: the F move on the solved state keeps all six centers. -/
theorem c6_centers_never_change_witness :
    nth (moveF solvedState).U 4 = nth solvedState.U 4 ∧
      nth (moveF solvedState).D 4 = nth solvedState.D 4 ∧
      nth (moveF solvedState).F 4 = nth solvedState.F 4 ∧
      nth (moveF solvedState).B 4 = nth solvedState.B 4 ∧
      nth (moveF solvedState).R 4 = nth solvedState.R 4 ∧
      nth (moveF solvedState).L 4 = nth solvedState.L 4 :=
  c6_centers_never_change solvedState (by decide) "F" (by decide) (moveF solvedState) rfl

/-- The face names, in the order the state dict is built. -/
def faceNames : List String := ["U", "D", "F", "B", "R", "L"]

/-- Reading a face list by name, Python `self.state[face]`. -/
def getFace (s : CState) (f : String) : List Color :=
  if f = "U" then s.U else if f = "D" then s.D else if f = "F" then s.F
  else if f = "B" then s.B else if f = "R" then s.R else if f = "L" then s.L
  else []

/-- `Cube.rotate_face_clockwise` at the cube level: rotate the named face in
place, `none` for an unknown face name (the ValueError branch). -/
def rotateFaceClockwiseOp (s : CState) (f : String) : Option CState :=
  if f = "U" then some { s with U := rotateFaceCW s.U }
  else if f = "D" then some { s with D := rotateFaceCW s.D }
  else if f = "F" then some { s with F := rotateFaceCW s.F }
  else if f = "B" then some { s with B := rotateFaceCW s.B }
  else if f = "R" then some { s with R := rotateFaceCW s.R }
  else if f = "L" then some { s with L := rotateFaceCW s.L }
  else none

/-- Destination of sticker `i` under the documented rotation cycles: corners
0→2→8→6→0, edges 1→5→7→3→1, center 4 fixed. -/
def rotTarget (i : Nat) : Nat :=
  if i = 0 then 2 else if i = 2 then 8 else if i = 8 then 6 else if i = 6 then 0
  else if i = 1 then 5 else if i = 5 then 7 else if i = 7 then 3 else if i = 3 then 1
  else 4

/-- C7: the clockwise face rotation moves every sticker of the named face
along the fixed cycles (corners 0→2→8→6→0, edges 1→5→7→3→1, center 4 fixed)
and leaves every other face of the state untouched. -/
theorem c7_rotate_face_cw_permutation :
    (∀ (l : List Color), l.length = 9 →
      ∀ i, i < 9 → nth (rotateFaceCW l) (rotTarget i) = nth l i) ∧
    (∀ (s : CState) (f : String), f ∈ faceNames →
      ∃ s2, rotateFaceClockwiseOp s f = some s2 ∧
        getFace s2 f = rotateFaceCW (getFace s f) ∧
        ∀ g ∈ faceNames, g ≠ f → getFace s2 g = getFace s g) := by
  constructor
  · intro l hl i hi
    obtain ⟨c0, c1, c2, c3, c4, c5, c6, c7, c8, rfl⟩ := list_eq_nine l hl
    interval_cases i <;> rfl
  · intro s f hf
    simp only [faceNames, List.mem_cons, List.not_mem_nil, or_false] at hf
    rcases hf with rfl | rfl | rfl | rfl | rfl | rfl <;>
      refine ⟨_, rfl, rfl, ?_⟩ <;>
        (intro g hg hne
         simp only [faceNames, List.mem_cons, List.not_mem_nil, or_false] at hg
         rcases hg with rfl | rfl | rfl | rfl | rfl | rfl <;>
           first
             | exact absurd rfl hne
             | rfl)

/-- Witness for C7: corner sticker 0 of the U face travels to position 2, and
rotating the U face of the solved state leaves the D face untouched. -/
theorem c7_rotate_face_cw_permutation_witness :
    nth (rotateFaceCW (solvedState.U)) (rotTarget 0) = nth (solvedState.U) 0 ∧
      ∃ s2, rotateFaceClockwiseOp solvedState "U" = some s2 ∧
        getFace s2 "U" = rotateFaceCW (getFace solvedState "U") ∧
        ∀ g ∈ faceNames, g ≠ "U" → getFace s2 g = getFace solvedState g :=
  ⟨c7_rotate_face_cw_permutation.1 solvedState.U (by decide) 0 (by decide),
   c7_rotate_face_cw_permutation.2 solvedState "U" (by decide)⟩

/-- Outside the alphabet, the move dispatch reaches the error branch. -/
theorem applyTok_none_of_not_mem (t : String) (ht : t ∉ allMoves) (s : CState) :
    applyTok t s = none := by
  simp only [allMoves, List.mem_cons, List.not_mem_nil, or_false, not_or] at ht
  obtain ⟨h1, h2, h3, h4, h5, h6, h7, h8, h9, h10, h11, h12, h13, h14, h15, h16, h17, h18⟩ := ht
  simp [applyTok, h1, h2, h3, h4, h5, h6, h7, h8, h9, h10, h11, h12, h13, h14, h15, h16, h17, h18]

/-- C5: executing a token outside the 18-symbol alphabet fails and leaves the
caller-visible cube (facelets and move history) exactly as it was, while
executing any of the 18 legal tokens on a valid state never fails. -/
theorem c5_invalid_move_rejected (c : Cube) (t : String) :
    (t ∉ allMoves → executeMove c t = (c, false)) ∧
      (isValidState c.state = true → t ∈ allMoves → (executeMove c t).2 = true) := by
  constructor
  · intro ht
    simp [executeMove, applyTok_none_of_not_mem t ht]
  · intro hv ht
    obtain ⟨s2, he, hval⟩ := c2_move_closure c.state hv t ht
    simp [executeMove, he, hval]

/-- Witness for C5: the token X is rejected leaving a fresh cube unchanged,
and the legal token U never fails on it. -/
theorem c5_invalid_move_rejected_witness :
    executeMove freshCube "X" = (freshCube, false) ∧
      (executeMove freshCube "U").2 = true :=
  ⟨(c5_invalid_move_rejected freshCube "X").1 (by decide),
   (c5_invalid_move_rejected freshCube "U").2 (by decide) (by decide)⟩

/-- Uniformity of all six faces: the loop of `is_solved`. -/
def allFacesUniform (s : CState) : Bool :=
  faceUniform s.U && faceUniform s.D && faceUniform s.F && faceUniform s.B &&
    faceUniform s.R && faceUniform s.L

/-- A state with two all-white faces: each face is uniform in its center
color, but the color counts are wrong, so the state is invalid. -/
def twoWhiteState : CState :=
  { U := List.replicate 9 'W', D := List.replicate 9 'W', F := List.replicate 9 'G',
    B := List.replicate 9 'B', R := List.replicate 9 'R', L := List.replicate 9 'O' }

/-- C10: `is_solved` returns true exactly on states that pass
`_is_valid_state` and are uniform per face; in particular it returns false on
every invalid state, even one whose faces are all uniform in their center
color, such as a state with two all-white faces. -/
theorem c10_solved_implies_valid :
    (∀ s, isSolved s = true ↔ (isValidState s = true ∧ allFacesUniform s = true)) ∧
      (allFacesUniform twoWhiteState = true ∧ isValidState twoWhiteState = false ∧
        isSolved twoWhiteState = false) := by
  constructor
  · intro s
    simp [isSolved, allFacesUniform, Bool.and_eq_true, and_assoc]
  · exact ⟨by decide, by decide, by decide⟩

/-- Witness for C10 at a concrete state: the solved state. -/
theorem c10_solved_implies_valid_witness :
    isSolved solvedState = true ↔
      (isValidState solvedState = true ∧ allFacesUniform solvedState = true) :=
  c10_solved_implies_valid.1 solvedState

/-- `Cube.set_state`: validate, then install a deep copy of the supplied
state, or keep the current state (printing only a console warning).  The
Bool mirrors the exception channel used for `executeMove`: `true` means the
call returned normally without raising; `set_state` raises nothing and
returns no error value, so the flag is always `true`. -/
def setState (c : Cube) (new : CState) : Cube × Bool :=
  if isValidState new then ({ c with state := new }, true) else (c, true)

/-- Counterexample to C9: handing `set_state` an invalid state (two all-white
faces) keeps the cube unchanged but reports no error whatsoever to the
caller — the call returns normally, exactly like the valid case. -/
theorem c9_counterexample :
    isValidState twoWhiteState = false ∧
      setState freshCube twoWhiteState = (freshCube, true) := ⟨by decide, by decide⟩

/-- C9 amended: on an invalid supplied state, `set_state` leaves the cube
exactly as it was and raises nothing (only a console warning is printed); on
a valid supplied state, the cube state becomes a copy of the supplied state
and the history is untouched. -/
theorem c9_set_state_behavior (c : Cube) (new : CState) :
    (isValidState new = false → setState c new = (c, true)) ∧
      (isValidState new = true →
        setState c new = ({ state := new, history := c.history }, true)) := by
  constructor
  · intro h; simp [setState, h]
  · intro h; simp [setState, h]

/-- Witness for C9 at concrete inputs: an invalid and a valid new state. -/
theorem c9_set_state_behavior_witness :
    setState freshCube twoWhiteState = (freshCube, true) ∧
      setState freshCube (moveU solvedState) =
        ({ state := moveU solvedState, history := [] }, true) :=
  ⟨(c9_set_state_behavior freshCube twoWhiteState).1 (by decide),
   (c9_set_state_behavior freshCube (moveU solvedState)).2 (by decide)⟩

/-- First character of a move token as a string, Python `move[0]`. -/
def faceOf (m : String) : String := String.mk (m.data.take 1)

/-- Python membership test of the prime character in the move token. -/
def hasPrime (m : String) : Bool := m.data.contains primeChar

/-- Python `'2' in move`. -/
def hasTwo (m : String) : Bool := m.data.contains '2'

/-- Rotation contribution of one token in `combine_same_face_moves`: a prime
counts −1, a double +2, anything else +1. -/
def rotVal (m : String) : Int := if hasPrime m then -1 else if hasTwo m then 2 else 1

/-- `ImprovedSolver.combine_same_face_moves`: net rotation of a same-face run
modulo 4, rendered back into a token (`none` when the run cancels out). -/
def combineSameFaceMoves (moves : List String) : Option String :=
  match moves with
  | [] => none
  | m0 :: _ =>
    let face := faceOf m0
    let total := (moves.foldl (fun a m => a + rotVal m) 0) % 4
    if total = 0 then none
    else if total = 1 then some face
    else if total = 2 then some (face ++ "2")
    else if total = 3 then some (face ++ primeStr)
    else none

/-- The `opposites` table of `moves_cancel`. -/
def oppositesTable : List (String × String) :=
  [("U", tUp), (tUp, "U"), ("D", tDp), (tDp, "D"), ("R", tRp), (tRp, "R"),
   ("L", tLp), (tLp, "L"), ("F", tFp), (tFp, "F"), ("B", tBp), (tBp, "B")]

/-- `ImprovedSolver.moves_cancel`: same face and listed as opposites. -/
def movesCancel (m1 m2 : String) : Bool :=
  if faceOf m1 ≠ faceOf m2 then false
  else (oppositesTable.lookup m1) == some m2

/-- The while loop of `ImprovedSolver.optimize_moves`.  The loop index `i`
advances by at least one each iteration, which the fuel argument mirrors;
with fuel at least the list length the zero-fuel branch is unreachable.
Each step groups the maximal run of consecutive tokens sharing the first
face of the first token: a run of two or more is replaced by its combined net rotation
(dropped when it cancels), a lone token is emitted unless it cancels with the
following token (dead in practice: a cancelling successor shares the face and
is grouped into the run). -/
def optLoop : Nat → List String → List String
  | 0, _ => []
  | _ + 1, [] => []
  | fuel + 1, m :: rest =>
    if (rest.takeWhile (fun x => faceOf x == faceOf m)).length + 1 > 1 then
      match combineSameFaceMoves (m :: rest.takeWhile (fun x => faceOf x == faceOf m)) with
      | some cmb => cmb :: optLoop fuel (rest.dropWhile (fun x => faceOf x == faceOf m))
      | none => optLoop fuel (rest.dropWhile (fun x => faceOf x == faceOf m))
    else
      match rest with
      | [] => [m]
      | m2 :: rest3 =>
        if movesCancel m m2 then optLoop fuel rest3 else m :: optLoop fuel rest

/-- `ImprovedSolver.optimize_moves`. -/
def optimizeMoves (moves : List String) : List String := optLoop moves.length moves

/-- Folding a token list splits across an append. -/
theorem applyTokensState_append (l1 l2 : List String) (s : CState) :
    applyTokensState (l1 ++ l2) s = applyTokensState l2 (applyTokensState l1 s) := by
  simp [applyTokensState, List.foldl_append]

/-- The clockwise base move function named by a face letter. -/
def baseFun (f : String) : CState → CState :=
  if f = "U" then moveU else if f = "D" then moveD else if f = "R" then moveR
  else if f = "L" then moveL else if f = "F" then moveF else if f = "B" then moveB
  else id

/-- Number of clockwise base turns a token performs in `execute_move`:
base 1, double 2, prime 3 (primes are three base turns in the source). -/
def tokAmt (t : String) : Nat := if hasPrime t then 3 else if hasTwo t then 2 else 1

/-- The face letter of an alphabet token is a face name. -/
theorem faceOf_tok_mem (t : String) (ht : t ∈ allMoves) : faceOf t ∈ faceNames := by
  simp only [allMoves, List.mem_cons, List.not_mem_nil, or_false] at ht
  rcases ht with rfl | rfl | rfl | rfl | rfl | rfl | rfl | rfl | rfl | rfl | rfl | rfl |
    rfl | rfl | rfl | rfl | rfl | rfl <;> decide

/-- Every base move function is good. -/
theorem goodFace (f : String) (hf : f ∈ faceNames) : GoodMove (baseFun f) := by
  simp only [faceNames, List.mem_cons, List.not_mem_nil, or_false] at hf
  rcases hf with rfl | rfl | rfl | rfl | rfl | rfl
  · exact moveU_good
  · exact moveD_good
  · exact moveF_good
  · exact moveB_good
  · exact moveR_good
  · exact moveL_good

/-- Every base move function has order dividing 4 on well-formed states. -/
theorem pow4Face (f : String) (hf : f ∈ faceNames) (s : CState) (h : facesLen9 s) :
    baseFun f (baseFun f (baseFun f (baseFun f s))) = s := by
  simp only [faceNames, List.mem_cons, List.not_mem_nil, or_false] at hf
  rcases hf with rfl | rfl | rfl | rfl | rfl | rfl
  · exact moveU_pow4 s h
  · exact moveD_pow4 s h
  · exact moveF_pow4 s h
  · exact moveB_pow4 s h
  · exact moveR_pow4 s h
  · exact moveL_pow4 s h

/-- Iterating a good move preserves validity. -/
theorem iterate_good {f : CState → CState} (hf : GoodMove f) (n : Nat) (s : CState)
    (h : isValidState s = true) : isValidState (f^[n] s) = true := by
  induction n generalizing s with
  | zero => simpa
  | succ n ih => rw [Function.iterate_succ_apply]; exact ih (f s) (valid_of_good hf s h)

/-- Iterating an order-4 good move only depends on the count mod 4. -/
theorem iterate_mod4 {f : CState → CState} (hf : GoodMove f)
    (hid : ∀ s, facesLen9 s → f (f (f (f s))) = s) :
    ∀ (k : Nat) (s : CState), facesLen9 s → f^[k] s = f^[k % 4] s := by
  intro k
  induction k using Nat.strong_induction_on with
  | _ k ih =>
    intro s hs
    by_cases hk : k < 4
    · rw [Nat.mod_eq_of_lt hk]
    · have hk4 : k = (k - 4) + 4 := by omega
      rw [hk4, Function.iterate_add_apply]
      have h4 : f^[4] s = s := hid s hs
      rw [h4, ih (k - 4) (by omega) s hs]
      congr 1
      omega

/-- Every alphabet token denotes an iterate of its base move function. -/
theorem applyTok_iter (t : String) (ht : t ∈ allMoves) (s : CState) :
    applyTok t s = some ((baseFun (faceOf t))^[tokAmt t] s) := by
  simp only [allMoves, List.mem_cons, List.not_mem_nil, or_false] at ht
  rcases ht with rfl | rfl | rfl | rfl | rfl | rfl | rfl | rfl | rfl | rfl | rfl | rfl |
    rfl | rfl | rfl | rfl | rfl | rfl <;> rfl

/-- The `execute_move` state evolution of an alphabet token on a valid
state is the iterate of its base move function. -/
theorem applyTokC_iter (t : String) (ht : t ∈ allMoves) (s : CState)
    (hs : isValidState s = true) :
    applyTokC t s = (baseFun (faceOf t))^[tokAmt t] s :=
  applyTokC_of_some (applyTok_iter t ht s)
    (iterate_good (goodFace (faceOf t) (faceOf_tok_mem t ht)) (tokAmt t) s hs)

/-- Executing an alphabet token on a valid state yields a valid state. -/
theorem applyTokC_valid (t : String) (ht : t ∈ allMoves) (s : CState)
    (hs : isValidState s = true) : isValidState (applyTokC t s) = true := by
  rw [applyTokC_iter t ht s hs]
  exact iterate_good (goodFace (faceOf t) (faceOf_tok_mem t ht)) _ s hs

/-- A run of same-face tokens acts as the summed iterate of the base move. -/
theorem run_sem (fc : String) (hmem : fc ∈ faceNames) (run : List String)
    (hm : ∀ t ∈ run, t ∈ allMoves) (hfc : ∀ t ∈ run, faceOf t = fc) :
    ∀ s, isValidState s = true →
      applyTokensState run s = (baseFun fc)^[(run.map tokAmt).sum] s := by
  induction run with
  | nil => intro s _; rfl
  | cons m rest ih =>
    intro s hs
    have hm0 : m ∈ allMoves := hm m (by simp)
    have hface : faceOf m = fc := hfc m (by simp)
    have h1 : applyTokC m s = (baseFun fc)^[tokAmt m] s := by
      rw [← hface]; exact applyTokC_iter m hm0 s hs
    have hv1 : isValidState ((baseFun fc)^[tokAmt m] s) = true :=
      iterate_good (goodFace fc hmem) _ s hs
    show applyTokensState rest (applyTokC m s) = _
    rw [h1, ih (fun t htt => hm t (by simp [htt])) (fun t htt => hfc t (by simp [htt]))
      _ hv1, ← Function.iterate_add_apply]
    congr 1
    simp [Nat.add_comm]

/-- The rotation fold of `combine_same_face_moves` is a sum. -/
theorem foldl_rotVal (l : List String) (a : Int) :
    l.foldl (fun a m => a + rotVal m) a = a + (l.map rotVal).sum := by
  induction l generalizing a with
  | nil => simp
  | cons m rest ih => simp [ih, add_assoc]

/-- Rotation value and base turn count of a token agree modulo 4. -/
theorem rotVal_amt_mod (t : String) (ht : t ∈ allMoves) :
    rotVal t % 4 = (tokAmt t : Int) % 4 := by
  simp only [allMoves, List.mem_cons, List.not_mem_nil, or_false] at ht
  rcases ht with rfl | rfl | rfl | rfl | rfl | rfl | rfl | rfl | rfl | rfl | rfl | rfl |
    rfl | rfl | rfl | rfl | rfl | rfl <;> decide

/-- Summed rotation values and summed turn counts agree modulo 4. -/
theorem sum_rot_amt_mod (l : List String) (hm : ∀ t ∈ l, t ∈ allMoves) :
    (l.map rotVal).sum % 4 = (((l.map tokAmt).sum : Nat) : Int) % 4 := by
  induction l with
  | nil => rfl
  | cons m rest ih =>
    have h1 := rotVal_amt_mod m (hm m (by simp))
    have h2 := ih (fun t htt => hm t (by simp [htt]))
    simp only [List.map_cons, List.sum_cons]
    push_cast at h2 ⊢
    omega

/-- The three tokens `combine_same_face_moves` can emit for a face are in
the alphabet, have that face, and perform 1, 2 and 3 base turns. -/
theorem combine_props (fc : String) (hmem : fc ∈ faceNames) :
    fc ∈ allMoves ∧ tokAmt fc = 1 ∧ faceOf fc = fc ∧
    (fc ++ "2") ∈ allMoves ∧ tokAmt (fc ++ "2") = 2 ∧ faceOf (fc ++ "2") = fc ∧
    (fc ++ primeStr) ∈ allMoves ∧ tokAmt (fc ++ primeStr) = 3 ∧
      faceOf (fc ++ primeStr) = fc := by
  simp only [faceNames, List.mem_cons, List.not_mem_nil, or_false] at hmem
  rcases hmem with rfl | rfl | rfl | rfl | rfl | rfl <;> decide

/-- The optimizer loop preserves the state semantics of any alphabet
token sequence on any valid state. -/
theorem optLoop_sem : ∀ (fuel : Nat) (q : List String), q.length ≤ fuel →
    (∀ t ∈ q, t ∈ allMoves) → ∀ s, isValidState s = true →
    applyTokensState (optLoop fuel q) s = applyTokensState q s := by
  intro fuel
  induction fuel with
  | zero =>
    intro q hlen _ s _
    have hq : q = [] := List.eq_nil_of_length_eq_zero (by omega)
    subst hq; rfl
  | succ fuel ih =>
    intro q hlen hq s hs
    match q with
    | [] => rfl
    | m :: rest =>
      have hm0 : m ∈ allMoves := hq m (by simp)
      have hfcmem : faceOf m ∈ faceNames := faceOf_tok_mem m hm0
      by_cases hr : rest.takeWhile (fun x => faceOf x == faceOf m) = []
      · -- lone token: no same-face run follows
        match rest with
        | [] => simp [optLoop]
        | m2 :: rest3 =>
          have hpm2 : ¬(faceOf m2 == faceOf m) = true := by
            intro hP
            simp [List.takeWhile_cons, hP] at hr
          have hcancel : movesCancel m m2 = false := by
            have hne2 : faceOf m ≠ faceOf m2 := by
              simp only [beq_iff_eq] at hpm2
              exact fun hcontra => hpm2 hcontra.symm
            simp [movesCancel, hne2]
          have hrest_len : rest3.length + 1 ≤ fuel := by
            simpa using Nat.le_of_succ_le_succ hlen
          have hstep : optLoop (fuel + 1) (m :: m2 :: rest3) =
              m :: optLoop fuel (m2 :: rest3) := by
            simp [optLoop, hr, hcancel]
          rw [hstep]
          show applyTokensState (optLoop fuel (m2 :: rest3)) (applyTokC m s) =
            applyTokensState (m2 :: rest3) (applyTokC m s)
          exact ih (m2 :: rest3) (by simpa using hlen)
            (fun t htt => hq t (by simp at htt ⊢; tauto))
            (applyTokC m s) (applyTokC_valid m hm0 s hs)
      · -- a genuine same-face run
        set run := rest.takeWhile (fun x => faceOf x == faceOf m) with hrun_def
        set rest2 := rest.dropWhile (fun x => faceOf x == faceOf m) with hrest2_def
        have hsplit : run ++ rest2 = rest := List.takeWhile_append_dropWhile _ _
        have hrun_mem : ∀ t ∈ run, t ∈ allMoves := fun t htt =>
          hq t (by
            right
            rw [← hsplit]
            exact List.mem_append_left _ htt)
        have hrun_face : ∀ t ∈ run, faceOf t = faceOf m := fun t htt => by
          have := List.mem_takeWhile_imp htt
          simpa [beq_iff_eq] using this
        have hrest2_mem : ∀ t ∈ rest2, t ∈ allMoves := fun t htt =>
          hq t (by
            right
            rw [← hsplit]
            exact List.mem_append_right _ htt)
        have hrest2_len : rest2.length ≤ fuel := by
          have h1 : rest2.length ≤ rest.length :=
            List.Sublist.length_le (List.dropWhile_sublist _)
          have h2 : rest.length + 1 ≤ fuel + 1 := by simpa using hlen
          omega
        have hlist_mem : ∀ t ∈ m :: run, t ∈ allMoves := by
          intro t htt
          rcases List.mem_cons.mp htt with rfl | htt2
          · exact hm0
          · exact hrun_mem t htt2
        have hlist_face : ∀ t ∈ m :: run, faceOf t = faceOf m := by
          intro t htt
          rcases List.mem_cons.mp htt with rfl | htt2
          · rfl
          · exact hrun_face t htt2
        -- semantics of the whole run prefix
        have hA := run_sem (faceOf m) hfcmem (m :: run) hlist_mem hlist_face s hs
        have hsplitq : applyTokensState (m :: rest) s =
            applyTokensState rest2 ((baseFun (faceOf m))^[((m :: run).map tokAmt).sum] s) := by
          conv_lhs => rw [← hsplit]
          rw [show (m :: (run ++ rest2)) = (m :: run) ++ rest2 from rfl,
            applyTokensState_append, hA]
        have hlen9 : facesLen9 s := valid_facesLen9 s hs
        have hAvalid : isValidState ((baseFun (faceOf m))^[((m :: run).map tokAmt).sum] s)
            = true := iterate_good (goodFace _ hfcmem) _ s hs
        -- net rotation facts
        have htot : ((m :: run).foldl (fun a x => a + rotVal x) 0) % 4 =
            ((((m :: run).map tokAmt).sum : Nat) : Int) % 4 := by
          rw [foldl_rotVal]
          simpa using sum_rot_amt_mod (m :: run) hlist_mem
        have hrun_ne : run.length + 1 > 1 := by
          rcases run with _ | ⟨a, b⟩
          · exact absurd rfl hr
          · simp
        obtain ⟨hfm1, hfa1, hff1, hfm2, hfa2, hff2, hfm3, hfa3, hff3⟩ :=
          combine_props (faceOf m) hfcmem
        -- case on the combined move
        rcases hcomb : combineSameFaceMoves (m :: run) with _ | cmb
        · -- run cancels: dropped entirely
          have hstep : optLoop (fuel + 1) (m :: rest) = optLoop fuel rest2 := by
            simp [optLoop, ← hrun_def, ← hrest2_def, hrun_ne, hcomb]
          have htot0 : (((m :: run).map tokAmt).sum) % 4 = 0 := by
            have hfold : ((m :: run).foldl (fun a m => a + rotVal m) 0) % 4 = 0 := by
              by_contra hne
              simp only [combineSameFaceMoves] at hcomb
              split_ifs at hcomb <;> omega
            omega
          have hid : (baseFun (faceOf m))^[((m :: run).map tokAmt).sum] s = s := by
            rw [iterate_mod4 (goodFace _ hfcmem) (pow4Face _ hfcmem) _ s hlen9, htot0]
            rfl
          rw [hstep, hsplitq, hid]
          exact ih rest2 hrest2_len hrest2_mem s hs
        · -- run combines into one token cmb
          have hstep : optLoop (fuel + 1) (m :: rest) = cmb :: optLoop fuel rest2 := by
            simp [optLoop, ← hrun_def, ← hrest2_def, hrun_ne, hcomb]
          simp only [combineSameFaceMoves] at hcomb
          split_ifs at hcomb with h0 h1 h2 h3
          · -- net rotation 1
            replace hcomb := Option.some.inj hcomb
            subst hcomb
            have hAk : (((m :: run).map tokAmt).sum) % 4 = 1 := by omega
            have hcmb : applyTokC (faceOf m) s = (baseFun (faceOf m))^[1] s := by
              have h5 := applyTokC_iter (faceOf m) hfm1 s hs
              rwa [hff1, hfa1] at h5
            rw [hstep, hsplitq]
            show applyTokensState (optLoop fuel rest2) (applyTokC (faceOf m) s) = _
            rw [hcmb, ih rest2 hrest2_len hrest2_mem _
              (iterate_good (goodFace _ hfcmem) 1 s hs)]
            congr 1
            conv_rhs => rw [iterate_mod4 (goodFace _ hfcmem) (pow4Face _ hfcmem) _ s hlen9]
            rw [hAk]
          · -- net rotation 2
            replace hcomb := Option.some.inj hcomb
            subst hcomb
            have hAk : (((m :: run).map tokAmt).sum) % 4 = 2 := by omega
            have hcmb : applyTokC (faceOf m ++ "2") s = (baseFun (faceOf m))^[2] s := by
              have h5 := applyTokC_iter (faceOf m ++ "2") hfm2 s hs
              rwa [hff2, hfa2] at h5
            rw [hstep, hsplitq]
            show applyTokensState (optLoop fuel rest2) (applyTokC (faceOf m ++ "2") s) = _
            rw [hcmb, ih rest2 hrest2_len hrest2_mem _
              (iterate_good (goodFace _ hfcmem) 2 s hs)]
            congr 1
            conv_rhs => rw [iterate_mod4 (goodFace _ hfcmem) (pow4Face _ hfcmem) _ s hlen9]
            rw [hAk]
          · -- net rotation 3
            replace hcomb := Option.some.inj hcomb
            subst hcomb
            have hAk : (((m :: run).map tokAmt).sum) % 4 = 3 := by omega
            have hcmb : applyTokC (faceOf m ++ primeStr) s = (baseFun (faceOf m))^[3] s := by
              have h5 := applyTokC_iter (faceOf m ++ primeStr) hfm3 s hs
              rwa [hff3, hfa3] at h5
            rw [hstep, hsplitq]
            show applyTokensState (optLoop fuel rest2) (applyTokC (faceOf m ++ primeStr) s) = _
            rw [hcmb, ih rest2 hrest2_len hrest2_mem _
              (iterate_good (goodFace _ hfcmem) 3 s hs)]
            congr 1
            conv_rhs => rw [iterate_mod4 (goodFace _ hfcmem) (pow4Face _ hfcmem) _ s hlen9]
            rw [hAk]

/-- Counterexample to C4 as stated: `optimize_moves` is not idempotent.  On
[U, D, D-prime, U] one pass cancels the D pair, leaving [U, U] whose two
same-face tokens become adjacent only after the drop; a second pass combines
them into [U2]. -/
theorem c4_optimize_not_idempotent :
    optimizeMoves (optimizeMoves ["U", "D", tDp, "U"]) ≠
      optimizeMoves ["U", "D", tDp, "U"] := by decide

/-- C4 amended: `optimize_moves` is semantics-preserving — applying the
optimized sequence to any valid state yields the same state as the original
alphabet sequence — but it is not idempotent (see the counterexample). -/
theorem c4_optimize_semantics (q : List String) (hq : ∀ t ∈ q, t ∈ allMoves)
    (s : CState) (hs : isValidState s = true) :
    applyTokensState (optimizeMoves q) s = applyTokensState q s :=
  optLoop_sem q.length q le_rfl hq s hs

/-- Witness for C4 at a concrete input: optimizing [R, R] on the solved
state. -/
theorem c4_optimize_semantics_witness :
    applyTokensState (optimizeMoves ["R", "R"]) solvedState =
      applyTokensState ["R", "R"] solvedState :=
  c4_optimize_semantics ["R", "R"] (by decide) solvedState (by decide)

/-- The availability computation of one `Cube.scramble` iteration: moves off
the previous face under the per-face cap, else any move off the previous
face, else (unreachably) the whole alphabet. -/
def scrambleAvail (n : Nat) (lastFace : String) (fc : String → Nat) : List String :=
  if allMoves.filter (fun m => faceOf m != lastFace && decide (fc (faceOf m) < n / 4)) ≠ [] then
    allMoves.filter (fun m => faceOf m != lastFace && decide (fc (faceOf m) < n / 4))
  else if allMoves.filter (fun m => faceOf m != lastFace) ≠ [] then
    allMoves.filter (fun m => faceOf m != lastFace)
  else allMoves

/-- The move `random.choice` picks at loop index `i`, under oracle `g`. -/
def scrambleChoice (g : Nat → Nat) (n i : Nat) (lastFace : String)
    (fc : String → Nat) : String :=
  (scrambleAvail n lastFace fc).getD (g i % (scrambleAvail n lastFace fc).length) "U"

/-- The scramble loop with `k` iterations remaining out of `n`.  The chosen
move is appended before execution (as in the source); the face bookkeeping
advances only when `execute_move` did not raise. -/
def scrambleLoop (g : Nat → Nat) (n : Nat) :
    Nat → Cube → String → (String → Nat) → List String → List String × Cube
  | 0, c, _, _, acc => (acc, c)
  | k + 1, c, lastFace, fc, acc =>
    if (executeMove c (scrambleChoice g n (n - (k + 1)) lastFace fc)).2 then
      scrambleLoop g n k (executeMove c (scrambleChoice g n (n - (k + 1)) lastFace fc)).1
        (faceOf (scrambleChoice g n (n - (k + 1)) lastFace fc))
        (fun f => if f = faceOf (scrambleChoice g n (n - (k + 1)) lastFace fc) then fc f + 1
          else fc f)
        (acc ++ [scrambleChoice g n (n - (k + 1)) lastFace fc])
    else
      scrambleLoop g n k c lastFace fc
        (acc ++ [scrambleChoice g n (n - (k + 1)) lastFace fc])

/-- `Cube.scramble`. -/
def scramble (c : Cube) (n : Nat) (g : Nat → Nat) : List String × Cube :=
  scrambleLoop g n n c "" (fun _ => 0) []

/-- No token has the same face as the token before it, starting after `lf`. -/
def chainOk : String → List String → Bool
  | _, [] => true
  | lf, t :: rest => faceOf t != lf && chainOk (faceOf t) rest

/-- Picking any index modulo the length of a nonempty list lands in it. -/
theorem getD_mod_mem (l : List String) (hne : l ≠ []) (i : Nat) :
    l.getD (i % l.length) "U" ∈ l := by
  have hlen : 0 < l.length := List.length_pos.mpr hne
  have hlt : i % l.length < l.length := Nat.mod_lt _ hlen
  rw [List.getD_eq_getElem?_getD, List.getElem?_eq_getElem hlt]
  exact List.getElem_mem hlt

/-- Dropping one face from the alphabet always leaves some move. -/
theorem filter_face_ne_nonempty (lf : String) :
    allMoves.filter (fun m => faceOf m != lf) ≠ [] := by
  by_cases h : lf = "U"
  · subst h
    intro hc
    have hd : "D" ∈ allMoves.filter (fun m => faceOf m != "U") := by decide
    rw [hc] at hd
    exact absurd hd (List.not_mem_nil _)
  · intro hc
    have hu : "U" ∈ allMoves.filter (fun m => faceOf m != lf) := by
      rw [List.mem_filter]
      refine ⟨by decide, ?_⟩
      have he : faceOf "U" = "U" := by decide
      rw [he, bne_iff_ne]
      exact fun hcc => h hcc.symm
    rw [hc] at hu
    exact absurd hu (List.not_mem_nil _)

/-- The availability list is never empty, stays inside the alphabet, and
avoids the previous face. -/
theorem scrambleAvail_props (n : Nat) (lf : String) (fc : String → Nat) :
    scrambleAvail n lf fc ≠ [] ∧
      ∀ m ∈ scrambleAvail n lf fc, m ∈ allMoves ∧ faceOf m ≠ lf := by
  unfold scrambleAvail
  split_ifs with h1 h2
  · refine ⟨h1, fun m hm => ?_⟩
    rw [List.mem_filter] at hm
    obtain ⟨hmem, hp⟩ := hm
    rw [Bool.and_eq_true, bne_iff_ne] at hp
    exact ⟨hmem, hp.1⟩
  · refine ⟨h2, fun m hm => ?_⟩
    rw [List.mem_filter] at hm
    obtain ⟨hmem, hp⟩ := hm
    rw [bne_iff_ne] at hp
    exact ⟨hmem, hp⟩
  · exact absurd (filter_face_ne_nonempty lf) h2

/-- On a valid cube, executing an alphabet token succeeds: the state becomes
the move result and the token is appended to the history. -/
theorem executeMove_ok (c : Cube) (t : String) (ht : t ∈ allMoves)
    (h : isValidState c.state = true) :
    executeMove c t =
      ({ state := applyTokC t c.state, history := c.history ++ [t] }, true) := by
  obtain ⟨s2, he, hv⟩ := c2_move_closure c.state h t ht
  have hc : applyTokC t c.state = s2 := applyTokC_of_some he hv
  simp [executeMove, he, hv, hc]

/-- Invariant of the scramble loop: from a valid cube it emits exactly `k`
alphabet moves with no immediate face repeat, applies them to the cube, and
ends valid. -/
theorem scrambleLoop_spec (g : Nat → Nat) (n : Nat) :
    ∀ (k : Nat) (c : Cube) (lastFace : String) (fc : String → Nat) (acc : List String),
      isValidState c.state = true →
      ∃ new, scrambleLoop g n k c lastFace fc acc = (acc ++ new, applyTokens c new) ∧
        new.length = k ∧ (∀ t ∈ new, t ∈ allMoves) ∧
        chainOk lastFace new = true ∧
        isValidState (applyTokens c new).state = true := by
  intro k
  induction k with
  | zero =>
    intro c lastFace fc acc h
    exact ⟨[], by simp [scrambleLoop, applyTokens], rfl, by simp, rfl, h⟩
  | succ k ih =>
    intro c lastFace fc acc h
    obtain ⟨hne, hprops⟩ := scrambleAvail_props n lastFace fc
    have hmem : scrambleChoice g n (n - (k + 1)) lastFace fc ∈ scrambleAvail n lastFace fc :=
      getD_mod_mem _ hne _
    set mv := scrambleChoice g n (n - (k + 1)) lastFace fc with hmv
    obtain ⟨hmv_tok, hmv_face⟩ := hprops mv hmem
    have hexec := executeMove_ok c mv hmv_tok h
    have hvalid2 : isValidState (applyTokC mv c.state) = true :=
      applyTokC_valid mv hmv_tok c.state h
    obtain ⟨new, hloop, hlen, htoks, hchain, hvfinal⟩ :=
      ih { state := applyTokC mv c.state, history := c.history ++ [mv] }
        (faceOf mv) (fun f => if f = faceOf mv then fc f + 1 else fc f)
        (acc ++ [mv]) hvalid2
    have happ : applyTokens { state := applyTokC mv c.state, history := c.history ++ [mv] }
        new = applyTokens c (mv :: new) := by
      rw [show applyTokens c (mv :: new) = applyTokens ((executeMove c mv).1) new from rfl,
        hexec]
    refine ⟨mv :: new, ?_, by simp [hlen], ?_, ?_, ?_⟩
    · rw [scrambleLoop, ← hmv, hexec]
      simp only [if_true]
      rw [hloop, happ]
      simp
    · intro t htt
      rcases List.mem_cons.mp htt with rfl | htt2
      · exact hmv_tok
      · exact htoks t htt2
    · rw [chainOk, Bool.and_eq_true, bne_iff_ne]
      exact ⟨hmv_face, hchain⟩
    · rw [← happ]
      exact hvfinal

/-- C8: for every valid starting cube, every move count and every behavior of
the random source, `scramble` returns exactly `n` alphabet moves with no
immediate face repeat, and re-applying the returned sequence to a fresh copy
of the start reproduces exactly the mutated state. -/
theorem c8_scramble_valid (c : Cube) (h : isValidState c.state = true) (n : Nat)
    (g : Nat → Nat) :
    (scramble c n g).1.length = n ∧
      (∀ t ∈ (scramble c n g).1, t ∈ allMoves) ∧
      chainOk "" (scramble c n g).1 = true ∧
      (applyTokens c (scramble c n g).1).state = (scramble c n g).2.state := by
  obtain ⟨new, hloop, hlen, htoks, hchain, _⟩ :=
    scrambleLoop_spec g n n c "" (fun _ => 0) [] h
  rw [scramble, hloop]
  exact ⟨hlen, htoks, hchain, rfl⟩

/-- Witness for C8 at a concrete input: a 3-move scramble of a fresh cube
under the identity oracle. -/
theorem c8_scramble_valid_witness :
    (scramble freshCube 3 (fun i => i)).1.length = 3 ∧
      (∀ t ∈ (scramble freshCube 3 (fun i => i)).1, t ∈ allMoves) ∧
      chainOk "" (scramble freshCube 3 (fun i => i)).1 = true ∧
      (applyTokens freshCube (scramble freshCube 3 (fun i => i)).1).state =
        (scramble freshCube 3 (fun i => i)).2.state :=
  c8_scramble_valid freshCube (by decide) 3 (fun i => i)

/- Embedding of backend/solvers/improved_solver.py: the two-phase solver. -/

set_option maxRecDepth 8000 in
/-- The white/yellow sticker pair used by the orientation heuristics. -/
def wyColors : List Color := ['W', 'Y']

set_option maxRecDepth 8000 in
/-- The 24 (face, position) pairs of `edges_oriented`. -/
def edgePositions : List (String × Nat) :=
  [("U", 1), ("U", 3), ("U", 5), ("U", 7), ("D", 1), ("D", 3), ("D", 5), ("D", 7),
   ("F", 1), ("F", 3), ("F", 5), ("F", 7), ("B", 1), ("B", 3), ("B", 5), ("B", 7),
   ("R", 1), ("R", 3), ("R", 5), ("R", 7), ("L", 1), ("L", 3), ("L", 5), ("L", 7)]

set_option maxRecDepth 8000 in
/-- `ImprovedSolver.edges_oriented`: counts white/yellow stickers on side
faces and non-white/yellow on U/D at edge positions; tolerates up to 2. -/
def edgesOriented (s : CState) : Bool :=
  decide (edgePositions.foldl (fun acc fp =>
    let color := nth (getFace s fp.1) fp.2
    if (fp.1 = "U" || fp.1 = "D") && !(wyColors.contains color) then acc + 1
    else if (fp.1 = "F" || fp.1 = "B" || fp.1 = "R" || fp.1 = "L") &&
        wyColors.contains color then acc + 1
    else acc) 0 ≤ 2)

set_option maxRecDepth 8000 in
/-- The corner positions of `corners_oriented`. -/
def cornerPositions : List Nat := [0, 2, 6, 8]

set_option maxRecDepth 8000 in
/-- `ImprovedSolver.corners_oriented`: at least 6 of the 8 U/D corner
stickers are white or yellow. -/
def cornersOriented (s : CState) : Bool :=
  decide (6 ≤ cornerPositions.foldl (fun acc p =>
    let a1 := if wyColors.contains (nth s.U p) then acc + 1 else acc
    if wyColors.contains (nth s.D p) then a1 + 1 else a1) 0)

set_option maxRecDepth 8000 in
/-- `ImprovedSolver.is_phase1_complete`. -/
def isPhase1Complete (s : CState) : Bool := edgesOriented s && cornersOriented s

set_option maxRecDepth 8000 in
/-- The M-slice edge-flip algorithm of `orient_edges` after the M → R, L-prime
conversion: M U M U M U2 M U M with each M replaced by R L-prime. -/
def edgeAlg : List String :=
  ["R", tLp, "U", "R", tLp, "U", "R", tLp, "U2", "R", tLp, "U", "R", tLp]

set_option maxRecDepth 8000 in
/-- The `corner_twist_algs` list (Sune, Anti-Sune, Niklas). -/
def cornerTwistAlgs : List (List String) :=
  [["R", "U", tRp, "U", "R", "U2", tRp],
   [tRp, tUp, "R", tUp, tRp, "U2", "R"],
   ["R", "U2", tRp, tUp, "R", tUp, tRp]]

set_option maxRecDepth 8000 in
/-- The fixed algorithm of `position_m_slice`. -/
def mSliceAlg : List String := ["R2", "U2", "R2", "U2", "R2"]

set_option maxRecDepth 8000 in
/-- The fixed algorithm of `phase2_corners_first`. -/
def corners1Alg : List String := ["R2", "U2", "R", "U2", "R2"]

set_option maxRecDepth 8000 in
/-- The fixed algorithm of `phase2_edges_first`. -/
def edges1Alg : List String := ["U2", "R2", "U2", "R2", "U2"]

set_option maxRecDepth 8000 in
/-- The algorithm cascade of `phase2_systematic`. -/
def systematicAlgs : List (List String) :=
  [["R2", "U2", "R2", "U2", "R2"], ["U2", "R2", "U2", "R2"], ["R2", "U2", "R2"],
   ["U2", "R2"], ["R2"], ["U2"], ["U"], [tUp]]

set_option maxRecDepth 8000 in
/-- `ImprovedSolver.orient_edges`: up to 4 applications of the edge
algorithm, stopping once `edges_oriented` holds. -/
def orientEdgesLoop : Nat → CState → List String × CState
  | 0, s => ([], s)
  | k + 1, s =>
    if edgesOriented s then ([], s)
    else
      let r := orientEdgesLoop k (applyTokensState edgeAlg s)
      (edgeAlg ++ r.1, r.2)

set_option maxRecDepth 8000 in
/-- `ImprovedSolver.orient_corners`: up to 6 applications of a randomly
chosen corner-twist algorithm; the oracle consumes one value per choice. -/
def orientCornersLoop (g : Nat → Nat) : Nat → CState → Nat → List String × CState × Nat
  | 0, s, ctr => ([], s, ctr)
  | k + 1, s, ctr =>
    if cornersOriented s then ([], s, ctr)
    else
      let alg := cornerTwistAlgs.getD (g ctr % cornerTwistAlgs.length) []
      let r := orientCornersLoop g k (applyTokensState alg s) (ctr + 1)
      (alg ++ r.1, r.2)

set_option maxRecDepth 8000 in
/-- `ImprovedSolver.position_m_slice`: applies its algorithm unconditionally. -/
def positionMSlice (s : CState) : List String × CState :=
  (mSliceAlg, applyTokensState mSliceAlg s)

set_option maxRecDepth 8000 in
/-- `ImprovedSolver.solve_phase1`: up to 12 attempts of
orient-edges / orient-corners / position-M-slice, returning early when
`is_phase1_complete`; all moves accumulate across attempts. -/
def solvePhase1Loop (g : Nat → Nat) :
    Nat → CState → Nat → List String → List String × CState × Nat
  | 0, s, ctr, acc => (acc, s, ctr)
  | k + 1, s, ctr, acc =>
    let e := orientEdgesLoop 4 s
    let c := orientCornersLoop g 6 e.2 ctr
    let m := positionMSlice c.2.1
    let acc2 := acc ++ e.1 ++ c.1 ++ m.1
    if isPhase1Complete m.2 then (acc2, m.2, c.2.2)
    else solvePhase1Loop g k m.2 c.2.2 acc2

set_option maxRecDepth 8000 in
/-- `ImprovedSolver.phase2_systematic`: the algorithm cascade, each step
guarded by a solved check. -/
def phase2SystematicLoop : List (List String) → CState → List String × CState
  | [], s => ([], s)
  | alg :: rest, s =>
    if isSolved s then ([], s)
    else
      let r := phase2SystematicLoop rest (applyTokensState alg s)
      (alg ++ r.1, r.2)

set_option maxRecDepth 8000 in
/-- One `solve_phase2` attempt: corners-first for attempts 0-4, edges-first
for 5-9, systematic afterwards; the first two apply their algorithm only when
the cube is unsolved. -/
def solvePhase2Step (a : Nat) (s : CState) : List String × CState :=
  if a < 5 then
    if isSolved s then ([], s) else (corners1Alg, applyTokensState corners1Alg s)
  else if a < 10 then
    if isSolved s then ([], s) else (edges1Alg, applyTokensState edges1Alg s)
  else phase2SystematicLoop systematicAlgs s

set_option maxRecDepth 8000 in
/-- `ImprovedSolver.solve_phase2`: up to 15 attempts, breaking when solved
before or after an attempt. -/
def solvePhase2Loop : Nat → CState → List String → List String × CState
  | 0, s, acc => (acc, s)
  | k + 1, s, acc =>
    if isSolved s then (acc, s)
    else
      let r := solvePhase2Step (15 - (k + 1)) s
      if isSolved r.2 then (acc ++ r.1, r.2) else solvePhase2Loop k r.2 (acc ++ r.1)

set_option maxRecDepth 8000 in
/-- Result of `ImprovedSolver.solve`: the returned solution list with its
move count, and the cube state the solver left behind. -/
structure SolveResult where
  solution : List String
  moveCount : Nat
  finalCube : CState
deriving Repr, DecidableEq

set_option maxRecDepth 8000 in
/-- `ImprovedSolver.solve`, success path.  The `except` fallback to the CFOP
solver is unreachable on this path: every token the phases execute is in the
18-token alphabet and the states stay valid, so `execute_move` never raises. -/
def improvedSolve (s : CState) (g : Nat → Nat) : SolveResult :=
  if isSolved s then { solution := [], moveCount := 0, finalCube := s }
  else
    let p1 := solvePhase1Loop g 12 s 0 []
    let p2 := solvePhase2Loop 15 p1.2.1 []
    let sol := optimizeMoves (p1.1 ++ p2.1)
    { solution := sol, moveCount := sol.length, finalCube := p2.2 }



set_option maxRecDepth 8000 in
/-- The random oracle of the concrete solver run: always the first choice. -/
def solveOracle : Nat → Nat := fun _ => 0

set_option maxRecDepth 8000 in
/-- The state produced by scrambling a fresh cube with one oracle-chosen
move (the U turn). -/
def scrambledU : CState :=
  { U := ['W', 'W', 'W', 'W', 'W', 'W', 'W', 'W', 'W'],
    D := ['Y', 'Y', 'Y', 'Y', 'Y', 'Y', 'Y', 'Y', 'Y'],
    F := ['R', 'R', 'R', 'G', 'G', 'G', 'G', 'G', 'G'],
    B := ['O', 'O', 'O', 'B', 'B', 'B', 'B', 'B', 'B'],
    R := ['B', 'B', 'B', 'R', 'R', 'R', 'R', 'R', 'R'],
    L := ['G', 'G', 'G', 'O', 'O', 'O', 'O', 'O', 'O'] }

set_option maxRecDepth 8000 in
/-- Solver trace state number 0 (after phase 1 for 0; after phase-2
attempt 0 for the rest). -/
def p2st0 : CState :=
  { U := ['W', 'W', 'W', 'W', 'W', 'W', 'W', 'W', 'W'],
    D := ['Y', 'Y', 'Y', 'Y', 'Y', 'Y', 'Y', 'Y', 'Y'],
    F := ['O', 'R', 'O', 'G', 'G', 'B', 'G', 'G', 'G'],
    B := ['R', 'O', 'R', 'G', 'B', 'B', 'B', 'B', 'B'],
    R := ['G', 'G', 'G', 'R', 'R', 'R', 'R', 'R', 'R'],
    L := ['B', 'B', 'B', 'O', 'O', 'O', 'O', 'O', 'O'] }

set_option maxRecDepth 8000 in
/-- Solver trace state number 1 (after phase 1 for 0; after phase-2
attempt 1 for the rest). -/
def p2st1 : CState :=
  { U := ['R', 'W', 'O', 'G', 'W', 'B', 'R', 'W', 'O'],
    D := ['Y', 'Y', 'Y', 'Y', 'Y', 'Y', 'Y', 'Y', 'Y'],
    F := ['W', 'R', 'W', 'G', 'G', 'W', 'G', 'G', 'G'],
    B := ['W', 'O', 'W', 'W', 'B', 'B', 'B', 'B', 'B'],
    R := ['B', 'R', 'G', 'B', 'R', 'G', 'R', 'R', 'R'],
    L := ['G', 'R', 'B', 'O', 'O', 'O', 'O', 'O', 'O'] }

set_option maxRecDepth 8000 in
/-- Solver trace state number 2 (after phase 1 for 0; after phase-2
attempt 2 for the rest). -/
def p2st2 : CState :=
  { U := ['W', 'W', 'W', 'W', 'W', 'W', 'W', 'W', 'W'],
    D := ['Y', 'Y', 'Y', 'Y', 'Y', 'Y', 'Y', 'Y', 'Y'],
    F := ['R', 'R', 'R', 'G', 'G', 'G', 'G', 'G', 'G'],
    B := ['O', 'O', 'O', 'B', 'B', 'B', 'B', 'B', 'B'],
    R := ['B', 'B', 'B', 'R', 'R', 'R', 'R', 'R', 'R'],
    L := ['G', 'G', 'G', 'O', 'O', 'O', 'O', 'O', 'O'] }

set_option maxRecDepth 8000 in
/-- Solver trace state number 3 (after phase 1 for 0; after phase-2
attempt 3 for the rest). -/
def p2st3 : CState :=
  { U := ['O', 'W', 'R', 'B', 'W', 'G', 'O', 'W', 'R'],
    D := ['Y', 'Y', 'Y', 'Y', 'Y', 'Y', 'Y', 'Y', 'Y'],
    F := ['W', 'R', 'W', 'G', 'G', 'W', 'G', 'G', 'G'],
    B := ['W', 'O', 'W', 'W', 'B', 'B', 'B', 'B', 'B'],
    R := ['G', 'R', 'B', 'G', 'R', 'B', 'R', 'R', 'R'],
    L := ['B', 'R', 'G', 'O', 'O', 'O', 'O', 'O', 'O'] }

set_option maxRecDepth 8000 in
/-- Solver trace state number 4 (after phase 1 for 0; after phase-2
attempt 4 for the rest). -/
def p2st4 : CState :=
  { U := ['W', 'W', 'W', 'W', 'W', 'W', 'W', 'W', 'W'],
    D := ['Y', 'Y', 'Y', 'Y', 'Y', 'Y', 'Y', 'Y', 'Y'],
    F := ['O', 'R', 'O', 'G', 'G', 'B', 'G', 'G', 'G'],
    B := ['R', 'O', 'R', 'G', 'B', 'B', 'B', 'B', 'B'],
    R := ['G', 'G', 'G', 'R', 'R', 'R', 'R', 'R', 'R'],
    L := ['B', 'B', 'B', 'O', 'O', 'O', 'O', 'O', 'O'] }

set_option maxRecDepth 8000 in
/-- Solver trace state number 5 (after phase 1 for 0; after phase-2
attempt 5 for the rest). -/
def p2st5 : CState :=
  { U := ['R', 'W', 'O', 'G', 'W', 'B', 'R', 'W', 'O'],
    D := ['Y', 'Y', 'Y', 'Y', 'Y', 'Y', 'Y', 'Y', 'Y'],
    F := ['W', 'R', 'W', 'G', 'G', 'W', 'G', 'G', 'G'],
    B := ['W', 'O', 'W', 'W', 'B', 'B', 'B', 'B', 'B'],
    R := ['B', 'R', 'G', 'B', 'R', 'G', 'R', 'R', 'R'],
    L := ['G', 'R', 'B', 'O', 'O', 'O', 'O', 'O', 'O'] }

set_option maxRecDepth 8000 in
/-- Solver trace state number 6 (after phase 1 for 0; after phase-2
attempt 6 for the rest). -/
def p2st6 : CState :=
  { U := ['R', 'W', 'Y', 'G', 'W', 'Y', 'R', 'W', 'Y'],
    D := ['Y', 'Y', 'O', 'Y', 'Y', 'B', 'Y', 'Y', 'O'],
    F := ['W', 'O', 'B', 'G', 'G', 'W', 'G', 'G', 'W'],
    B := ['G', 'R', 'W', 'W', 'B', 'B', 'W', 'B', 'B'],
    R := ['R', 'R', 'R', 'B', 'R', 'G', 'G', 'R', 'B'],
    L := ['G', 'R', 'B', 'O', 'O', 'O', 'O', 'O', 'O'] }

set_option maxRecDepth 8000 in
/-- Solver trace state number 7 (after phase 1 for 0; after phase-2
attempt 7 for the rest). -/
def p2st7 : CState :=
  { U := ['R', 'W', 'O', 'G', 'W', 'B', 'R', 'W', 'O'],
    D := ['Y', 'Y', 'Y', 'Y', 'Y', 'Y', 'Y', 'Y', 'Y'],
    F := ['W', 'R', 'W', 'G', 'G', 'W', 'G', 'G', 'G'],
    B := ['W', 'O', 'W', 'W', 'B', 'B', 'B', 'B', 'B'],
    R := ['B', 'R', 'G', 'B', 'R', 'G', 'R', 'R', 'R'],
    L := ['G', 'R', 'B', 'O', 'O', 'O', 'O', 'O', 'O'] }

set_option maxRecDepth 8000 in
/-- Solver trace state number 8 (after phase 1 for 0; after phase-2
attempt 8 for the rest). -/
def p2st8 : CState :=
  { U := ['R', 'W', 'Y', 'G', 'W', 'Y', 'R', 'W', 'Y'],
    D := ['Y', 'Y', 'O', 'Y', 'Y', 'B', 'Y', 'Y', 'O'],
    F := ['W', 'O', 'B', 'G', 'G', 'W', 'G', 'G', 'W'],
    B := ['G', 'R', 'W', 'W', 'B', 'B', 'W', 'B', 'B'],
    R := ['R', 'R', 'R', 'B', 'R', 'G', 'G', 'R', 'B'],
    L := ['G', 'R', 'B', 'O', 'O', 'O', 'O', 'O', 'O'] }

set_option maxRecDepth 8000 in
/-- Solver trace state number 9 (after phase 1 for 0; after phase-2
attempt 9 for the rest). -/
def p2st9 : CState :=
  { U := ['R', 'W', 'O', 'G', 'W', 'B', 'R', 'W', 'O'],
    D := ['Y', 'Y', 'Y', 'Y', 'Y', 'Y', 'Y', 'Y', 'Y'],
    F := ['W', 'R', 'W', 'G', 'G', 'W', 'G', 'G', 'G'],
    B := ['W', 'O', 'W', 'W', 'B', 'B', 'B', 'B', 'B'],
    R := ['B', 'R', 'G', 'B', 'R', 'G', 'R', 'R', 'R'],
    L := ['G', 'R', 'B', 'O', 'O', 'O', 'O', 'O', 'O'] }

set_option maxRecDepth 8000 in
/-- Solver trace state number 10 (after phase 1 for 0; after phase-2
attempt 10 for the rest). -/
def p2st10 : CState :=
  { U := ['R', 'W', 'Y', 'G', 'W', 'Y', 'R', 'W', 'Y'],
    D := ['Y', 'Y', 'O', 'Y', 'Y', 'B', 'Y', 'Y', 'O'],
    F := ['W', 'O', 'B', 'G', 'G', 'W', 'G', 'G', 'W'],
    B := ['G', 'R', 'W', 'W', 'B', 'B', 'W', 'B', 'B'],
    R := ['R', 'R', 'R', 'B', 'R', 'G', 'G', 'R', 'B'],
    L := ['G', 'R', 'B', 'O', 'O', 'O', 'O', 'O', 'O'] }

set_option maxRecDepth 8000 in
/-- Solver trace state number 11 (after phase 1 for 0; after phase-2
attempt 11 for the rest). -/
def p2st11 : CState :=
  { U := ['R', 'W', 'Y', 'G', 'W', 'Y', 'R', 'W', 'Y'],
    D := ['Y', 'Y', 'O', 'Y', 'Y', 'B', 'Y', 'Y', 'O'],
    F := ['W', 'R', 'B', 'G', 'G', 'W', 'G', 'G', 'W'],
    B := ['G', 'O', 'W', 'W', 'B', 'B', 'W', 'B', 'B'],
    R := ['R', 'R', 'R', 'G', 'R', 'B', 'G', 'R', 'B'],
    L := ['G', 'R', 'B', 'O', 'O', 'O', 'O', 'O', 'O'] }

set_option maxRecDepth 8000 in
/-- Solver trace state number 12 (after phase 1 for 0; after phase-2
attempt 12 for the rest). -/
def p2st12 : CState :=
  { U := ['R', 'W', 'Y', 'G', 'W', 'Y', 'R', 'W', 'Y'],
    D := ['Y', 'Y', 'O', 'Y', 'Y', 'B', 'Y', 'Y', 'O'],
    F := ['W', 'O', 'B', 'G', 'G', 'W', 'G', 'G', 'W'],
    B := ['G', 'R', 'W', 'W', 'B', 'B', 'W', 'B', 'B'],
    R := ['R', 'R', 'R', 'B', 'R', 'G', 'G', 'R', 'B'],
    L := ['G', 'R', 'B', 'O', 'O', 'O', 'O', 'O', 'O'] }

set_option maxRecDepth 8000 in
/-- Solver trace state number 13 (after phase 1 for 0; after phase-2
attempt 13 for the rest). -/
def p2st13 : CState :=
  { U := ['R', 'W', 'Y', 'G', 'W', 'Y', 'R', 'W', 'Y'],
    D := ['Y', 'Y', 'O', 'Y', 'Y', 'B', 'Y', 'Y', 'O'],
    F := ['W', 'R', 'B', 'G', 'G', 'W', 'G', 'G', 'W'],
    B := ['G', 'O', 'W', 'W', 'B', 'B', 'W', 'B', 'B'],
    R := ['R', 'R', 'R', 'G', 'R', 'B', 'G', 'R', 'B'],
    L := ['G', 'R', 'B', 'O', 'O', 'O', 'O', 'O', 'O'] }

set_option maxRecDepth 8000 in
/-- Solver trace state number 14 (after phase 1 for 0; after phase-2
attempt 14 for the rest). -/
def p2st14 : CState :=
  { U := ['R', 'W', 'Y', 'G', 'W', 'Y', 'R', 'W', 'Y'],
    D := ['Y', 'Y', 'O', 'Y', 'Y', 'B', 'Y', 'Y', 'O'],
    F := ['W', 'O', 'B', 'G', 'G', 'W', 'G', 'G', 'W'],
    B := ['G', 'R', 'W', 'W', 'B', 'B', 'W', 'B', 'B'],
    R := ['R', 'R', 'R', 'B', 'R', 'G', 'G', 'R', 'B'],
    L := ['G', 'R', 'B', 'O', 'O', 'O', 'O', 'O', 'O'] }

set_option maxRecDepth 8000 in
/-- Solver trace state number 15 (after phase 1 for 0; after phase-2
attempt 15 for the rest). -/
def p2st15 : CState :=
  { U := ['R', 'W', 'Y', 'G', 'W', 'Y', 'R', 'W', 'Y'],
    D := ['Y', 'Y', 'O', 'Y', 'Y', 'B', 'Y', 'Y', 'O'],
    F := ['W', 'R', 'B', 'G', 'G', 'W', 'G', 'G', 'W'],
    B := ['G', 'O', 'W', 'W', 'B', 'B', 'W', 'B', 'B'],
    R := ['R', 'R', 'R', 'G', 'R', 'B', 'G', 'R', 'B'],
    L := ['G', 'R', 'B', 'O', 'O', 'O', 'O', 'O', 'O'] }

set_option maxRecDepth 8000 in
/-- Evaluation: the one-move scramble chosen by the oracle. -/
theorem scramble_eval :
    scramble freshCube 1 solveOracle = (["U"], { state := scrambledU, history := ["U"] }) := by
  decide

set_option maxRecDepth 8000 in
/-- Evaluation: phase 1 finishes after one attempt, emitting only the
M-slice algorithm. -/
theorem phase1_eval :
    solvePhase1Loop solveOracle 12 scrambledU 0 [] = (["R2", "U2", "R2", "U2", "R2"], p2st0, 0) := by
  decide

/-- One unsolved step of the phase-2 loop unfolds to the next attempt. -/
theorem solvePhase2Loop_step (k : Nat) (s : CState) (acc : List String)
    (hs : isSolved s = false)
    (hnext : isSolved (solvePhase2Step (15 - (k + 1)) s).2 = false) :
    solvePhase2Loop (k + 1) s acc =
      solvePhase2Loop k (solvePhase2Step (15 - (k + 1)) s).2
        (acc ++ (solvePhase2Step (15 - (k + 1)) s).1) := by
  simp only [solvePhase2Loop, hs, hnext, Bool.false_eq_true, if_false]

set_option maxRecDepth 8000 in
/-- Evaluation of phase-2 attempt 0. -/
theorem p2step0_eval :
    solvePhase2Step (15 - (14 + 1)) p2st0 = (["R2", "U2", "R", "U2", "R2"], p2st1) := by
  decide

set_option maxRecDepth 8000 in
/-- Phase-2 loop, attempt 0 unfolded. -/
theorem p2loop0 :
    solvePhase2Loop 15 p2st0 [] =
      solvePhase2Loop 14 p2st1 ["R2", "U2", "R", "U2", "R2"] := by
  have h := solvePhase2Loop_step 14 p2st0 [] (by decide) (by decide)
  rw [p2step0_eval] at h
  exact h

set_option maxRecDepth 8000 in
/-- Evaluation of phase-2 attempt 1. -/
theorem p2step1_eval :
    solvePhase2Step (15 - (13 + 1)) p2st1 = (["R2", "U2", "R", "U2", "R2"], p2st2) := by
  decide

set_option maxRecDepth 8000 in
/-- Phase-2 loop, attempt 1 unfolded. -/
theorem p2loop1 :
    solvePhase2Loop 14 p2st1 ["R2", "U2", "R", "U2", "R2"] =
      solvePhase2Loop 13 p2st2 ["R2", "U2", "R", "U2", "R2", "R2", "U2", "R", "U2", "R2"] := by
  have h := solvePhase2Loop_step 13 p2st1 ["R2", "U2", "R", "U2", "R2"] (by decide) (by decide)
  rw [p2step1_eval] at h
  exact h

set_option maxRecDepth 8000 in
/-- Evaluation of phase-2 attempt 2. -/
theorem p2step2_eval :
    solvePhase2Step (15 - (12 + 1)) p2st2 = (["R2", "U2", "R", "U2", "R2"], p2st3) := by
  decide

set_option maxRecDepth 8000 in
/-- Phase-2 loop, attempt 2 unfolded. -/
theorem p2loop2 :
    solvePhase2Loop 13 p2st2 ["R2", "U2", "R", "U2", "R2", "R2", "U2", "R", "U2", "R2"] =
      solvePhase2Loop 12 p2st3 ["R2", "U2", "R", "U2", "R2", "R2", "U2", "R", "U2", "R2", "R2", "U2", "R", "U2", "R2"] := by
  have h := solvePhase2Loop_step 12 p2st2 ["R2", "U2", "R", "U2", "R2", "R2", "U2", "R", "U2", "R2"] (by decide) (by decide)
  rw [p2step2_eval] at h
  exact h

set_option maxRecDepth 8000 in
/-- Evaluation of phase-2 attempt 3. -/
theorem p2step3_eval :
    solvePhase2Step (15 - (11 + 1)) p2st3 = (["R2", "U2", "R", "U2", "R2"], p2st4) := by
  decide

set_option maxRecDepth 8000 in
/-- Phase-2 loop, attempt 3 unfolded. -/
theorem p2loop3 :
    solvePhase2Loop 12 p2st3 ["R2", "U2", "R", "U2", "R2", "R2", "U2", "R", "U2", "R2", "R2", "U2", "R", "U2", "R2"] =
      solvePhase2Loop 11 p2st4 ["R2", "U2", "R", "U2", "R2", "R2", "U2", "R", "U2", "R2", "R2", "U2", "R", "U2", "R2", "R2", "U2", "R", "U2", "R2"] := by
  have h := solvePhase2Loop_step 11 p2st3 ["R2", "U2", "R", "U2", "R2", "R2", "U2", "R", "U2", "R2", "R2", "U2", "R", "U2", "R2"] (by decide) (by decide)
  rw [p2step3_eval] at h
  exact h

set_option maxRecDepth 8000 in
/-- Evaluation of phase-2 attempt 4. -/
theorem p2step4_eval :
    solvePhase2Step (15 - (10 + 1)) p2st4 = (["R2", "U2", "R", "U2", "R2"], p2st5) := by
  decide

set_option maxRecDepth 8000 in
/-- Phase-2 loop, attempt 4 unfolded. -/
theorem p2loop4 :
    solvePhase2Loop 11 p2st4 ["R2", "U2", "R", "U2", "R2", "R2", "U2", "R", "U2", "R2", "R2", "U2", "R", "U2", "R2", "R2", "U2", "R", "U2", "R2"] =
      solvePhase2Loop 10 p2st5 ["R2", "U2", "R", "U2", "R2", "R2", "U2", "R", "U2", "R2", "R2", "U2", "R", "U2", "R2", "R2", "U2", "R", "U2", "R2", "R2", "U2", "R", "U2", "R2"] := by
  have h := solvePhase2Loop_step 10 p2st4 ["R2", "U2", "R", "U2", "R2", "R2", "U2", "R", "U2", "R2", "R2", "U2", "R", "U2", "R2", "R2", "U2", "R", "U2", "R2"] (by decide) (by decide)
  rw [p2step4_eval] at h
  exact h

set_option maxRecDepth 8000 in
/-- Evaluation of phase-2 attempt 5. -/
theorem p2step5_eval :
    solvePhase2Step (15 - (9 + 1)) p2st5 = (["U2", "R2", "U2", "R2", "U2"], p2st6) := by
  decide

set_option maxRecDepth 8000 in
/-- Phase-2 loop, attempt 5 unfolded. -/
theorem p2loop5 :
    solvePhase2Loop 10 p2st5 ["R2", "U2", "R", "U2", "R2", "R2", "U2", "R", "U2", "R2", "R2", "U2", "R", "U2", "R2", "R2", "U2", "R", "U2", "R2", "R2", "U2", "R", "U2", "R2"] =
      solvePhase2Loop 9 p2st6 ["R2", "U2", "R", "U2", "R2", "R2", "U2", "R", "U2", "R2", "R2", "U2", "R", "U2", "R2", "R2", "U2", "R", "U2", "R2", "R2", "U2", "R", "U2", "R2", "U2", "R2", "U2", "R2", "U2"] := by
  have h := solvePhase2Loop_step 9 p2st5 ["R2", "U2", "R", "U2", "R2", "R2", "U2", "R", "U2", "R2", "R2", "U2", "R", "U2", "R2", "R2", "U2", "R", "U2", "R2", "R2", "U2", "R", "U2", "R2"] (by decide) (by decide)
  rw [p2step5_eval] at h
  exact h

set_option maxRecDepth 8000 in
/-- Evaluation of phase-2 attempt 6. -/
theorem p2step6_eval :
    solvePhase2Step (15 - (8 + 1)) p2st6 = (["U2", "R2", "U2", "R2", "U2"], p2st7) := by
  decide

set_option maxRecDepth 8000 in
/-- Phase-2 loop, attempt 6 unfolded. -/
theorem p2loop6 :
    solvePhase2Loop 9 p2st6 ["R2", "U2", "R", "U2", "R2", "R2", "U2", "R", "U2", "R2", "R2", "U2", "R", "U2", "R2", "R2", "U2", "R", "U2", "R2", "R2", "U2", "R", "U2", "R2", "U2", "R2", "U2", "R2", "U2"] =
      solvePhase2Loop 8 p2st7 ["R2", "U2", "R", "U2", "R2", "R2", "U2", "R", "U2", "R2", "R2", "U2", "R", "U2", "R2", "R2", "U2", "R", "U2", "R2", "R2", "U2", "R", "U2", "R2", "U2", "R2", "U2", "R2", "U2", "U2", "R2", "U2", "R2", "U2"] := by
  have h := solvePhase2Loop_step 8 p2st6 ["R2", "U2", "R", "U2", "R2", "R2", "U2", "R", "U2", "R2", "R2", "U2", "R", "U2", "R2", "R2", "U2", "R", "U2", "R2", "R2", "U2", "R", "U2", "R2", "U2", "R2", "U2", "R2", "U2"] (by decide) (by decide)
  rw [p2step6_eval] at h
  exact h

set_option maxRecDepth 8000 in
/-- Evaluation of phase-2 attempt 7. -/
theorem p2step7_eval :
    solvePhase2Step (15 - (7 + 1)) p2st7 = (["U2", "R2", "U2", "R2", "U2"], p2st8) := by
  decide

set_option maxRecDepth 8000 in
/-- Phase-2 loop, attempt 7 unfolded. -/
theorem p2loop7 :
    solvePhase2Loop 8 p2st7 ["R2", "U2", "R", "U2", "R2", "R2", "U2", "R", "U2", "R2", "R2", "U2", "R", "U2", "R2", "R2", "U2", "R", "U2", "R2", "R2", "U2", "R", "U2", "R2", "U2", "R2", "U2", "R2", "U2", "U2", "R2", "U2", "R2", "U2"] =
      solvePhase2Loop 7 p2st8 ["R2", "U2", "R", "U2", "R2", "R2", "U2", "R", "U2", "R2", "R2", "U2", "R", "U2", "R2", "R2", "U2", "R", "U2", "R2", "R2", "U2", "R", "U2", "R2", "U2", "R2", "U2", "R2", "U2", "U2", "R2", "U2", "R2", "U2", "U2", "R2", "U2", "R2", "U2"] := by
  have h := solvePhase2Loop_step 7 p2st7 ["R2", "U2", "R", "U2", "R2", "R2", "U2", "R", "U2", "R2", "R2", "U2", "R", "U2", "R2", "R2", "U2", "R", "U2", "R2", "R2", "U2", "R", "U2", "R2", "U2", "R2", "U2", "R2", "U2", "U2", "R2", "U2", "R2", "U2"] (by decide) (by decide)
  rw [p2step7_eval] at h
  exact h

set_option maxRecDepth 8000 in
/-- Evaluation of phase-2 attempt 8. -/
theorem p2step8_eval :
    solvePhase2Step (15 - (6 + 1)) p2st8 = (["U2", "R2", "U2", "R2", "U2"], p2st9) := by
  decide

set_option maxRecDepth 8000 in
/-- Phase-2 loop, attempt 8 unfolded. -/
theorem p2loop8 :
    solvePhase2Loop 7 p2st8 ["R2", "U2", "R", "U2", "R2", "R2", "U2", "R", "U2", "R2", "R2", "U2", "R", "U2", "R2", "R2", "U2", "R", "U2", "R2", "R2", "U2", "R", "U2", "R2", "U2", "R2", "U2", "R2", "U2", "U2", "R2", "U2", "R2", "U2", "U2", "R2", "U2", "R2", "U2"] =
      solvePhase2Loop 6 p2st9 ["R2", "U2", "R", "U2", "R2", "R2", "U2", "R", "U2", "R2", "R2", "U2", "R", "U2", "R2", "R2", "U2", "R", "U2", "R2", "R2", "U2", "R", "U2", "R2", "U2", "R2", "U2", "R2", "U2", "U2", "R2", "U2", "R2", "U2", "U2", "R2", "U2", "R2", "U2", "U2", "R2", "U2", "R2", "U2"] := by
  have h := solvePhase2Loop_step 6 p2st8 ["R2", "U2", "R", "U2", "R2", "R2", "U2", "R", "U2", "R2", "R2", "U2", "R", "U2", "R2", "R2", "U2", "R", "U2", "R2", "R2", "U2", "R", "U2", "R2", "U2", "R2", "U2", "R2", "U2", "U2", "R2", "U2", "R2", "U2", "U2", "R2", "U2", "R2", "U2"] (by decide) (by decide)
  rw [p2step8_eval] at h
  exact h

set_option maxRecDepth 8000 in
/-- Evaluation of phase-2 attempt 9. -/
theorem p2step9_eval :
    solvePhase2Step (15 - (5 + 1)) p2st9 = (["U2", "R2", "U2", "R2", "U2"], p2st10) := by
  decide

set_option maxRecDepth 8000 in
/-- Phase-2 loop, attempt 9 unfolded. -/
theorem p2loop9 :
    solvePhase2Loop 6 p2st9 ["R2", "U2", "R", "U2", "R2", "R2", "U2", "R", "U2", "R2", "R2", "U2", "R", "U2", "R2", "R2", "U2", "R", "U2", "R2", "R2", "U2", "R", "U2", "R2", "U2", "R2", "U2", "R2", "U2", "U2", "R2", "U2", "R2", "U2", "U2", "R2", "U2", "R2", "U2", "U2", "R2", "U2", "R2", "U2"] =
      solvePhase2Loop 5 p2st10 ["R2", "U2", "R", "U2", "R2", "R2", "U2", "R", "U2", "R2", "R2", "U2", "R", "U2", "R2", "R2", "U2", "R", "U2", "R2", "R2", "U2", "R", "U2", "R2", "U2", "R2", "U2", "R2", "U2", "U2", "R2", "U2", "R2", "U2", "U2", "R2", "U2", "R2", "U2", "U2", "R2", "U2", "R2", "U2", "U2", "R2", "U2", "R2", "U2"] := by
  have h := solvePhase2Loop_step 5 p2st9 ["R2", "U2", "R", "U2", "R2", "R2", "U2", "R", "U2", "R2", "R2", "U2", "R", "U2", "R2", "R2", "U2", "R", "U2", "R2", "R2", "U2", "R", "U2", "R2", "U2", "R2", "U2", "R2", "U2", "U2", "R2", "U2", "R2", "U2", "U2", "R2", "U2", "R2", "U2", "U2", "R2", "U2", "R2", "U2"] (by decide) (by decide)
  rw [p2step9_eval] at h
  exact h

set_option maxRecDepth 8000 in
/-- Evaluation of phase-2 attempt 10. -/
theorem p2step10_eval :
    solvePhase2Step (15 - (4 + 1)) p2st10 = (["R2", "U2", "R2", "U2", "R2", "U2", "R2", "U2", "R2", "R2", "U2", "R2", "U2", "R2", "R2", "U2", "U", tUp], p2st11) := by
  decide

set_option maxRecDepth 8000 in
/-- Phase-2 loop, attempt 10 unfolded. -/
theorem p2loop10 :
    solvePhase2Loop 5 p2st10 ["R2", "U2", "R", "U2", "R2", "R2", "U2", "R", "U2", "R2", "R2", "U2", "R", "U2", "R2", "R2", "U2", "R", "U2", "R2", "R2", "U2", "R", "U2", "R2", "U2", "R2", "U2", "R2", "U2", "U2", "R2", "U2", "R2", "U2", "U2", "R2", "U2", "R2", "U2", "U2", "R2", "U2", "R2", "U2", "U2", "R2", "U2", "R2", "U2"] =
      solvePhase2Loop 4 p2st11 ["R2", "U2", "R", "U2", "R2", "R2", "U2", "R", "U2", "R2", "R2", "U2", "R", "U2", "R2", "R2", "U2", "R", "U2", "R2", "R2", "U2", "R", "U2", "R2", "U2", "R2", "U2", "R2", "U2", "U2", "R2", "U2", "R2", "U2", "U2", "R2", "U2", "R2", "U2", "U2", "R2", "U2", "R2", "U2", "U2", "R2", "U2", "R2", "U2", "R2", "U2", "R2", "U2", "R2", "U2", "R2", "U2", "R2", "R2", "U2", "R2", "U2", "R2", "R2", "U2", "U", tUp] := by
  have h := solvePhase2Loop_step 4 p2st10 ["R2", "U2", "R", "U2", "R2", "R2", "U2", "R", "U2", "R2", "R2", "U2", "R", "U2", "R2", "R2", "U2", "R", "U2", "R2", "R2", "U2", "R", "U2", "R2", "U2", "R2", "U2", "R2", "U2", "U2", "R2", "U2", "R2", "U2", "U2", "R2", "U2", "R2", "U2", "U2", "R2", "U2", "R2", "U2", "U2", "R2", "U2", "R2", "U2"] (by decide) (by decide)
  rw [p2step10_eval] at h
  exact h

set_option maxRecDepth 8000 in
/-- Evaluation of phase-2 attempt 11. -/
theorem p2step11_eval :
    solvePhase2Step (15 - (3 + 1)) p2st11 = (["R2", "U2", "R2", "U2", "R2", "U2", "R2", "U2", "R2", "R2", "U2", "R2", "U2", "R2", "R2", "U2", "U", tUp], p2st12) := by
  decide

set_option maxRecDepth 8000 in
/-- Phase-2 loop, attempt 11 unfolded. -/
theorem p2loop11 :
    solvePhase2Loop 4 p2st11 ["R2", "U2", "R", "U2", "R2", "R2", "U2", "R", "U2", "R2", "R2", "U2", "R", "U2", "R2", "R2", "U2", "R", "U2", "R2", "R2", "U2", "R", "U2", "R2", "U2", "R2", "U2", "R2", "U2", "U2", "R2", "U2", "R2", "U2", "U2", "R2", "U2", "R2", "U2", "U2", "R2", "U2", "R2", "U2", "U2", "R2", "U2", "R2", "U2", "R2", "U2", "R2", "U2", "R2", "U2", "R2", "U2", "R2", "R2", "U2", "R2", "U2", "R2", "R2", "U2", "U", tUp] =
      solvePhase2Loop 3 p2st12 ["R2", "U2", "R", "U2", "R2", "R2", "U2", "R", "U2", "R2", "R2", "U2", "R", "U2", "R2", "R2", "U2", "R", "U2", "R2", "R2", "U2", "R", "U2", "R2", "U2", "R2", "U2", "R2", "U2", "U2", "R2", "U2", "R2", "U2", "U2", "R2", "U2", "R2", "U2", "U2", "R2", "U2", "R2", "U2", "U2", "R2", "U2", "R2", "U2", "R2", "U2", "R2", "U2", "R2", "U2", "R2", "U2", "R2", "R2", "U2", "R2", "U2", "R2", "R2", "U2", "U", tUp, "R2", "U2", "R2", "U2", "R2", "U2", "R2", "U2", "R2", "R2", "U2", "R2", "U2", "R2", "R2", "U2", "U", tUp] := by
  have h := solvePhase2Loop_step 3 p2st11 ["R2", "U2", "R", "U2", "R2", "R2", "U2", "R", "U2", "R2", "R2", "U2", "R", "U2", "R2", "R2", "U2", "R", "U2", "R2", "R2", "U2", "R", "U2", "R2", "U2", "R2", "U2", "R2", "U2", "U2", "R2", "U2", "R2", "U2", "U2", "R2", "U2", "R2", "U2", "U2", "R2", "U2", "R2", "U2", "U2", "R2", "U2", "R2", "U2", "R2", "U2", "R2", "U2", "R2", "U2", "R2", "U2", "R2", "R2", "U2", "R2", "U2", "R2", "R2", "U2", "U", tUp] (by decide) (by decide)
  rw [p2step11_eval] at h
  exact h

set_option maxRecDepth 8000 in
/-- Evaluation of phase-2 attempt 12. -/
theorem p2step12_eval :
    solvePhase2Step (15 - (2 + 1)) p2st12 = (["R2", "U2", "R2", "U2", "R2", "U2", "R2", "U2", "R2", "R2", "U2", "R2", "U2", "R2", "R2", "U2", "U", tUp], p2st13) := by
  decide

set_option maxRecDepth 8000 in
/-- Phase-2 loop, attempt 12 unfolded. -/
theorem p2loop12 :
    solvePhase2Loop 3 p2st12 ["R2", "U2", "R", "U2", "R2", "R2", "U2", "R", "U2", "R2", "R2", "U2", "R", "U2", "R2", "R2", "U2", "R", "U2", "R2", "R2", "U2", "R", "U2", "R2", "U2", "R2", "U2", "R2", "U2", "U2", "R2", "U2", "R2", "U2", "U2", "R2", "U2", "R2", "U2", "U2", "R2", "U2", "R2", "U2", "U2", "R2", "U2", "R2", "U2", "R2", "U2", "R2", "U2", "R2", "U2", "R2", "U2", "R2", "R2", "U2", "R2", "U2", "R2", "R2", "U2", "U", tUp, "R2", "U2", "R2", "U2", "R2", "U2", "R2", "U2", "R2", "R2", "U2", "R2", "U2", "R2", "R2", "U2", "U", tUp] =
      solvePhase2Loop 2 p2st13 ["R2", "U2", "R", "U2", "R2", "R2", "U2", "R", "U2", "R2", "R2", "U2", "R", "U2", "R2", "R2", "U2", "R", "U2", "R2", "R2", "U2", "R", "U2", "R2", "U2", "R2", "U2", "R2", "U2", "U2", "R2", "U2", "R2", "U2", "U2", "R2", "U2", "R2", "U2", "U2", "R2", "U2", "R2", "U2", "U2", "R2", "U2", "R2", "U2", "R2", "U2", "R2", "U2", "R2", "U2", "R2", "U2", "R2", "R2", "U2", "R2", "U2", "R2", "R2", "U2", "U", tUp, "R2", "U2", "R2", "U2", "R2", "U2", "R2", "U2", "R2", "R2", "U2", "R2", "U2", "R2", "R2", "U2", "U", tUp, "R2", "U2", "R2", "U2", "R2", "U2", "R2", "U2", "R2", "R2", "U2", "R2", "U2", "R2", "R2", "U2", "U", tUp] := by
  have h := solvePhase2Loop_step 2 p2st12 ["R2", "U2", "R", "U2", "R2", "R2", "U2", "R", "U2", "R2", "R2", "U2", "R", "U2", "R2", "R2", "U2", "R", "U2", "R2", "R2", "U2", "R", "U2", "R2", "U2", "R2", "U2", "R2", "U2", "U2", "R2", "U2", "R2", "U2", "U2", "R2", "U2", "R2", "U2", "U2", "R2", "U2", "R2", "U2", "U2", "R2", "U2", "R2", "U2", "R2", "U2", "R2", "U2", "R2", "U2", "R2", "U2", "R2", "R2", "U2", "R2", "U2", "R2", "R2", "U2", "U", tUp, "R2", "U2", "R2", "U2", "R2", "U2", "R2", "U2", "R2", "R2", "U2", "R2", "U2", "R2", "R2", "U2", "U", tUp] (by decide) (by decide)
  rw [p2step12_eval] at h
  exact h

set_option maxRecDepth 8000 in
/-- Evaluation of phase-2 attempt 13. -/
theorem p2step13_eval :
    solvePhase2Step (15 - (1 + 1)) p2st13 = (["R2", "U2", "R2", "U2", "R2", "U2", "R2", "U2", "R2", "R2", "U2", "R2", "U2", "R2", "R2", "U2", "U", tUp], p2st14) := by
  decide

set_option maxRecDepth 8000 in
/-- Phase-2 loop, attempt 13 unfolded. -/
theorem p2loop13 :
    solvePhase2Loop 2 p2st13 ["R2", "U2", "R", "U2", "R2", "R2", "U2", "R", "U2", "R2", "R2", "U2", "R", "U2", "R2", "R2", "U2", "R", "U2", "R2", "R2", "U2", "R", "U2", "R2", "U2", "R2", "U2", "R2", "U2", "U2", "R2", "U2", "R2", "U2", "U2", "R2", "U2", "R2", "U2", "U2", "R2", "U2", "R2", "U2", "U2", "R2", "U2", "R2", "U2", "R2", "U2", "R2", "U2", "R2", "U2", "R2", "U2", "R2", "R2", "U2", "R2", "U2", "R2", "R2", "U2", "U", tUp, "R2", "U2", "R2", "U2", "R2", "U2", "R2", "U2", "R2", "R2", "U2", "R2", "U2", "R2", "R2", "U2", "U", tUp, "R2", "U2", "R2", "U2", "R2", "U2", "R2", "U2", "R2", "R2", "U2", "R2", "U2", "R2", "R2", "U2", "U", tUp] =
      solvePhase2Loop 1 p2st14 ["R2", "U2", "R", "U2", "R2", "R2", "U2", "R", "U2", "R2", "R2", "U2", "R", "U2", "R2", "R2", "U2", "R", "U2", "R2", "R2", "U2", "R", "U2", "R2", "U2", "R2", "U2", "R2", "U2", "U2", "R2", "U2", "R2", "U2", "U2", "R2", "U2", "R2", "U2", "U2", "R2", "U2", "R2", "U2", "U2", "R2", "U2", "R2", "U2", "R2", "U2", "R2", "U2", "R2", "U2", "R2", "U2", "R2", "R2", "U2", "R2", "U2", "R2", "R2", "U2", "U", tUp, "R2", "U2", "R2", "U2", "R2", "U2", "R2", "U2", "R2", "R2", "U2", "R2", "U2", "R2", "R2", "U2", "U", tUp, "R2", "U2", "R2", "U2", "R2", "U2", "R2", "U2", "R2", "R2", "U2", "R2", "U2", "R2", "R2", "U2", "U", tUp, "R2", "U2", "R2", "U2", "R2", "U2", "R2", "U2", "R2", "R2", "U2", "R2", "U2", "R2", "R2", "U2", "U", tUp] := by
  have h := solvePhase2Loop_step 1 p2st13 ["R2", "U2", "R", "U2", "R2", "R2", "U2", "R", "U2", "R2", "R2", "U2", "R", "U2", "R2", "R2", "U2", "R", "U2", "R2", "R2", "U2", "R", "U2", "R2", "U2", "R2", "U2", "R2", "U2", "U2", "R2", "U2", "R2", "U2", "U2", "R2", "U2", "R2", "U2", "U2", "R2", "U2", "R2", "U2", "U2", "R2", "U2", "R2", "U2", "R2", "U2", "R2", "U2", "R2", "U2", "R2", "U2", "R2", "R2", "U2", "R2", "U2", "R2", "R2", "U2", "U", tUp, "R2", "U2", "R2", "U2", "R2", "U2", "R2", "U2", "R2", "R2", "U2", "R2", "U2", "R2", "R2", "U2", "U", tUp, "R2", "U2", "R2", "U2", "R2", "U2", "R2", "U2", "R2", "R2", "U2", "R2", "U2", "R2", "R2", "U2", "U", tUp] (by decide) (by decide)
  rw [p2step13_eval] at h
  exact h

set_option maxRecDepth 8000 in
/-- Evaluation of phase-2 attempt 14. -/
theorem p2step14_eval :
    solvePhase2Step (15 - (0 + 1)) p2st14 = (["R2", "U2", "R2", "U2", "R2", "U2", "R2", "U2", "R2", "R2", "U2", "R2", "U2", "R2", "R2", "U2", "U", tUp], p2st15) := by
  decide

set_option maxRecDepth 8000 in
/-- Phase-2 loop, attempt 14 unfolded. -/
theorem p2loop14 :
    solvePhase2Loop 1 p2st14 ["R2", "U2", "R", "U2", "R2", "R2", "U2", "R", "U2", "R2", "R2", "U2", "R", "U2", "R2", "R2", "U2", "R", "U2", "R2", "R2", "U2", "R", "U2", "R2", "U2", "R2", "U2", "R2", "U2", "U2", "R2", "U2", "R2", "U2", "U2", "R2", "U2", "R2", "U2", "U2", "R2", "U2", "R2", "U2", "U2", "R2", "U2", "R2", "U2", "R2", "U2", "R2", "U2", "R2", "U2", "R2", "U2", "R2", "R2", "U2", "R2", "U2", "R2", "R2", "U2", "U", tUp, "R2", "U2", "R2", "U2", "R2", "U2", "R2", "U2", "R2", "R2", "U2", "R2", "U2", "R2", "R2", "U2", "U", tUp, "R2", "U2", "R2", "U2", "R2", "U2", "R2", "U2", "R2", "R2", "U2", "R2", "U2", "R2", "R2", "U2", "U", tUp, "R2", "U2", "R2", "U2", "R2", "U2", "R2", "U2", "R2", "R2", "U2", "R2", "U2", "R2", "R2", "U2", "U", tUp] =
      solvePhase2Loop 0 p2st15 ["R2", "U2", "R", "U2", "R2", "R2", "U2", "R", "U2", "R2", "R2", "U2", "R", "U2", "R2", "R2", "U2", "R", "U2", "R2", "R2", "U2", "R", "U2", "R2", "U2", "R2", "U2", "R2", "U2", "U2", "R2", "U2", "R2", "U2", "U2", "R2", "U2", "R2", "U2", "U2", "R2", "U2", "R2", "U2", "U2", "R2", "U2", "R2", "U2", "R2", "U2", "R2", "U2", "R2", "U2", "R2", "U2", "R2", "R2", "U2", "R2", "U2", "R2", "R2", "U2", "U", tUp, "R2", "U2", "R2", "U2", "R2", "U2", "R2", "U2", "R2", "R2", "U2", "R2", "U2", "R2", "R2", "U2", "U", tUp, "R2", "U2", "R2", "U2", "R2", "U2", "R2", "U2", "R2", "R2", "U2", "R2", "U2", "R2", "R2", "U2", "U", tUp, "R2", "U2", "R2", "U2", "R2", "U2", "R2", "U2", "R2", "R2", "U2", "R2", "U2", "R2", "R2", "U2", "U", tUp, "R2", "U2", "R2", "U2", "R2", "U2", "R2", "U2", "R2", "R2", "U2", "R2", "U2", "R2", "R2", "U2", "U", tUp] := by
  have h := solvePhase2Loop_step 0 p2st14 ["R2", "U2", "R", "U2", "R2", "R2", "U2", "R", "U2", "R2", "R2", "U2", "R", "U2", "R2", "R2", "U2", "R", "U2", "R2", "R2", "U2", "R", "U2", "R2", "U2", "R2", "U2", "R2", "U2", "U2", "R2", "U2", "R2", "U2", "U2", "R2", "U2", "R2", "U2", "U2", "R2", "U2", "R2", "U2", "U2", "R2", "U2", "R2", "U2", "R2", "U2", "R2", "U2", "R2", "U2", "R2", "U2", "R2", "R2", "U2", "R2", "U2", "R2", "R2", "U2", "U", tUp, "R2", "U2", "R2", "U2", "R2", "U2", "R2", "U2", "R2", "R2", "U2", "R2", "U2", "R2", "R2", "U2", "U", tUp, "R2", "U2", "R2", "U2", "R2", "U2", "R2", "U2", "R2", "R2", "U2", "R2", "U2", "R2", "R2", "U2", "U", tUp, "R2", "U2", "R2", "U2", "R2", "U2", "R2", "U2", "R2", "R2", "U2", "R2", "U2", "R2", "R2", "U2", "U", tUp] (by decide) (by decide)
  rw [p2step14_eval] at h
  exact h

set_option maxRecDepth 8000 in
/-- Full phase-2 evaluation: 15 attempts, 140 moves, never solved. -/
theorem p2_eval : solvePhase2Loop 15 p2st0 [] = (["R2", "U2", "R", "U2", "R2", "R2", "U2", "R", "U2", "R2", "R2", "U2", "R", "U2", "R2", "R2", "U2", "R", "U2", "R2", "R2", "U2", "R", "U2", "R2", "U2", "R2", "U2", "R2", "U2", "U2", "R2", "U2", "R2", "U2", "U2", "R2", "U2", "R2", "U2", "U2", "R2", "U2", "R2", "U2", "U2", "R2", "U2", "R2", "U2", "R2", "U2", "R2", "U2", "R2", "U2", "R2", "U2", "R2", "R2", "U2", "R2", "U2", "R2", "R2", "U2", "U", tUp, "R2", "U2", "R2", "U2", "R2", "U2", "R2", "U2", "R2", "R2", "U2", "R2", "U2", "R2", "R2", "U2", "U", tUp, "R2", "U2", "R2", "U2", "R2", "U2", "R2", "U2", "R2", "R2", "U2", "R2", "U2", "R2", "R2", "U2", "U", tUp, "R2", "U2", "R2", "U2", "R2", "U2", "R2", "U2", "R2", "R2", "U2", "R2", "U2", "R2", "R2", "U2", "U", tUp, "R2", "U2", "R2", "U2", "R2", "U2", "R2", "U2", "R2", "R2", "U2", "R2", "U2", "R2", "R2", "U2", "U", tUp], p2st15) := by
  rw [p2loop0, p2loop1, p2loop2, p2loop3, p2loop4, p2loop5, p2loop6, p2loop7, p2loop8, p2loop9, p2loop10, p2loop11, p2loop12, p2loop13, p2loop14]
  rfl

set_option maxRecDepth 8000 in
/-- The raw 145-token move record of the two phases. -/
def c1RawMoves : List String := ["R2", "U2", "R2", "U2", "R2", "R2", "U2", "R", "U2", "R2", "R2", "U2", "R", "U2", "R2", "R2", "U2", "R", "U2", "R2", "R2", "U2", "R", "U2", "R2", "R2", "U2", "R", "U2", "R2", "U2", "R2", "U2", "R2", "U2", "U2", "R2", "U2", "R2", "U2", "U2", "R2", "U2", "R2", "U2", "U2", "R2", "U2", "R2", "U2", "U2", "R2", "U2", "R2", "U2", "R2", "U2", "R2", "U2", "R2", "U2", "R2", "U2", "R2", "R2", "U2", "R2", "U2", "R2", "R2", "U2", "U", tUp, "R2", "U2", "R2", "U2", "R2", "U2", "R2", "U2", "R2", "R2", "U2", "R2", "U2", "R2", "R2", "U2", "U", tUp, "R2", "U2", "R2", "U2", "R2", "U2", "R2", "U2", "R2", "R2", "U2", "R2", "U2", "R2", "R2", "U2", "U", tUp, "R2", "U2", "R2", "U2", "R2", "U2", "R2", "U2", "R2", "R2", "U2", "R2", "U2", "R2", "R2", "U2", "U", tUp, "R2", "U2", "R2", "U2", "R2", "U2", "R2", "U2", "R2", "R2", "U2", "R2", "U2", "R2", "R2", "U2", "U", tUp]

set_option maxRecDepth 8000 in
/-- The optimized 97-token solution the solver returns. -/
def c1Solution : List String := ["R2", "U2", "R2", "U2", "U2", "R", "U2", "U2", "R", "U2", "U2", "R", "U2", "U2", "R", "U2", "U2", "R", "U2", "R2", "U2", "R2", "U2", "R2", "R2", "U2", "R2", "R2", "U2", "R2", "R2", "U2", "R2", "R2", "U2", "R2", "U2", "R2", "U2", "R2", "U2", "R2", "U2", "R2", "U2", "U2", "R2", "U2", "U2", "R2", "U2", "R2", "U2", "R2", "U2", "R2", "U2", "U2", "R2", "U2", "U2", "R2", "U2", "R2", "U2", "R2", "U2", "R2", "U2", "U2", "R2", "U2", "U2", "R2", "U2", "R2", "U2", "R2", "U2", "R2", "U2", "U2", "R2", "U2", "U2", "R2", "U2", "R2", "U2", "R2", "U2", "R2", "U2", "U2", "R2", "U2", "U2"]

set_option maxRecDepth 8000 in
/-- Evaluation of the optimizer on the raw move record. -/
theorem c1_optimize_eval : optimizeMoves c1RawMoves = c1Solution := by
  decide

set_option maxRecDepth 8000 in
/-- Evaluation of the whole solve call on the scrambled state. -/
theorem c1_solve_components :
    improvedSolve scrambledU solveOracle =
      { solution := c1Solution, moveCount := 97, finalCube := p2st15 } := by
  rw [improvedSolve]
  rw [show isSolved scrambledU = false from by decide]
  simp only [Bool.false_eq_true, if_false]
  rw [phase1_eval]
  rw [show ((["R2", "U2", "R2", "U2", "R2"], p2st0, 0) : List String × CState × Nat).2.1 = p2st0 from rfl]
  rw [show ((["R2", "U2", "R2", "U2", "R2"], p2st0, 0) : List String × CState × Nat).1 = ["R2", "U2", "R2", "U2", "R2"] from rfl]
  rw [p2_eval]
  rw [show ((["R2", "U2", "R", "U2", "R2", "R2", "U2", "R", "U2", "R2", "R2", "U2", "R", "U2", "R2", "R2", "U2", "R", "U2", "R2", "R2", "U2", "R", "U2", "R2", "U2", "R2", "U2", "R2", "U2", "U2", "R2", "U2", "R2", "U2", "U2", "R2", "U2", "R2", "U2", "U2", "R2", "U2", "R2", "U2", "U2", "R2", "U2", "R2", "U2", "R2", "U2", "R2", "U2", "R2", "U2", "R2", "U2", "R2", "R2", "U2", "R2", "U2", "R2", "R2", "U2", "U", tUp, "R2", "U2", "R2", "U2", "R2", "U2", "R2", "U2", "R2", "R2", "U2", "R2", "U2", "R2", "R2", "U2", "U", tUp, "R2", "U2", "R2", "U2", "R2", "U2", "R2", "U2", "R2", "R2", "U2", "R2", "U2", "R2", "R2", "U2", "U", tUp, "R2", "U2", "R2", "U2", "R2", "U2", "R2", "U2", "R2", "R2", "U2", "R2", "U2", "R2", "R2", "U2", "U", tUp, "R2", "U2", "R2", "U2", "R2", "U2", "R2", "U2", "R2", "R2", "U2", "R2", "U2", "R2", "R2", "U2", "U", tUp], p2st15) : List String × CState).1 = ["R2", "U2", "R", "U2", "R2", "R2", "U2", "R", "U2", "R2", "R2", "U2", "R", "U2", "R2", "R2", "U2", "R", "U2", "R2", "R2", "U2", "R", "U2", "R2", "U2", "R2", "U2", "R2", "U2", "U2", "R2", "U2", "R2", "U2", "U2", "R2", "U2", "R2", "U2", "U2", "R2", "U2", "R2", "U2", "U2", "R2", "U2", "R2", "U2", "R2", "U2", "R2", "U2", "R2", "U2", "R2", "U2", "R2", "R2", "U2", "R2", "U2", "R2", "R2", "U2", "U", tUp, "R2", "U2", "R2", "U2", "R2", "U2", "R2", "U2", "R2", "R2", "U2", "R2", "U2", "R2", "R2", "U2", "U", tUp, "R2", "U2", "R2", "U2", "R2", "U2", "R2", "U2", "R2", "R2", "U2", "R2", "U2", "R2", "R2", "U2", "U", tUp, "R2", "U2", "R2", "U2", "R2", "U2", "R2", "U2", "R2", "R2", "U2", "R2", "U2", "R2", "R2", "U2", "U", tUp, "R2", "U2", "R2", "U2", "R2", "U2", "R2", "U2", "R2", "R2", "U2", "R2", "U2", "R2", "R2", "U2", "U", tUp] from rfl]
  rw [show ((["R2", "U2", "R", "U2", "R2", "R2", "U2", "R", "U2", "R2", "R2", "U2", "R", "U2", "R2", "R2", "U2", "R", "U2", "R2", "R2", "U2", "R", "U2", "R2", "U2", "R2", "U2", "R2", "U2", "U2", "R2", "U2", "R2", "U2", "U2", "R2", "U2", "R2", "U2", "U2", "R2", "U2", "R2", "U2", "U2", "R2", "U2", "R2", "U2", "R2", "U2", "R2", "U2", "R2", "U2", "R2", "U2", "R2", "R2", "U2", "R2", "U2", "R2", "R2", "U2", "U", tUp, "R2", "U2", "R2", "U2", "R2", "U2", "R2", "U2", "R2", "R2", "U2", "R2", "U2", "R2", "R2", "U2", "U", tUp, "R2", "U2", "R2", "U2", "R2", "U2", "R2", "U2", "R2", "R2", "U2", "R2", "U2", "R2", "R2", "U2", "U", tUp, "R2", "U2", "R2", "U2", "R2", "U2", "R2", "U2", "R2", "R2", "U2", "R2", "U2", "R2", "R2", "U2", "U", tUp, "R2", "U2", "R2", "U2", "R2", "U2", "R2", "U2", "R2", "R2", "U2", "R2", "U2", "R2", "R2", "U2", "U", tUp], p2st15) : List String × CState).2 = p2st15 from rfl]
  rw [show ["R2", "U2", "R2", "U2", "R2"] ++ ["R2", "U2", "R", "U2", "R2", "R2", "U2", "R", "U2", "R2", "R2", "U2", "R", "U2", "R2", "R2", "U2", "R", "U2", "R2", "R2", "U2", "R", "U2", "R2", "U2", "R2", "U2", "R2", "U2", "U2", "R2", "U2", "R2", "U2", "U2", "R2", "U2", "R2", "U2", "U2", "R2", "U2", "R2", "U2", "U2", "R2", "U2", "R2", "U2", "R2", "U2", "R2", "U2", "R2", "U2", "R2", "U2", "R2", "R2", "U2", "R2", "U2", "R2", "R2", "U2", "U", tUp, "R2", "U2", "R2", "U2", "R2", "U2", "R2", "U2", "R2", "R2", "U2", "R2", "U2", "R2", "R2", "U2", "U", tUp, "R2", "U2", "R2", "U2", "R2", "U2", "R2", "U2", "R2", "R2", "U2", "R2", "U2", "R2", "R2", "U2", "U", tUp, "R2", "U2", "R2", "U2", "R2", "U2", "R2", "U2", "R2", "R2", "U2", "R2", "U2", "R2", "R2", "U2", "U", tUp, "R2", "U2", "R2", "U2", "R2", "U2", "R2", "U2", "R2", "R2", "U2", "R2", "U2", "R2", "R2", "U2", "U", tUp] = c1RawMoves from rfl]
  rw [c1_optimize_eval]
  rw [show (c1Solution : List String).length = 97 from by decide]

set_option maxRecDepth 8000 in
/-- Re-applying the phase-1 moves to the scrambled state. -/
theorem c1_reapply_p1 : applyTokensState ["R2", "U2", "R2", "U2", "R2"] scrambledU = p2st0 := by
  decide

set_option maxRecDepth 8000 in
/-- Re-applying the phase-2 attempt-0 moves. -/
theorem c1_reapply0 : applyTokensState ["R2", "U2", "R", "U2", "R2"] p2st0 = p2st1 := by
  decide

set_option maxRecDepth 8000 in
/-- Re-applying the phase-2 attempt-1 moves. -/
theorem c1_reapply1 : applyTokensState ["R2", "U2", "R", "U2", "R2"] p2st1 = p2st2 := by
  decide

set_option maxRecDepth 8000 in
/-- Re-applying the phase-2 attempt-2 moves. -/
theorem c1_reapply2 : applyTokensState ["R2", "U2", "R", "U2", "R2"] p2st2 = p2st3 := by
  decide

set_option maxRecDepth 8000 in
/-- Re-applying the phase-2 attempt-3 moves. -/
theorem c1_reapply3 : applyTokensState ["R2", "U2", "R", "U2", "R2"] p2st3 = p2st4 := by
  decide

set_option maxRecDepth 8000 in
/-- Re-applying the phase-2 attempt-4 moves. -/
theorem c1_reapply4 : applyTokensState ["R2", "U2", "R", "U2", "R2"] p2st4 = p2st5 := by
  decide

set_option maxRecDepth 8000 in
/-- Re-applying the phase-2 attempt-5 moves. -/
theorem c1_reapply5 : applyTokensState ["U2", "R2", "U2", "R2", "U2"] p2st5 = p2st6 := by
  decide

set_option maxRecDepth 8000 in
/-- Re-applying the phase-2 attempt-6 moves. -/
theorem c1_reapply6 : applyTokensState ["U2", "R2", "U2", "R2", "U2"] p2st6 = p2st7 := by
  decide

set_option maxRecDepth 8000 in
/-- Re-applying the phase-2 attempt-7 moves. -/
theorem c1_reapply7 : applyTokensState ["U2", "R2", "U2", "R2", "U2"] p2st7 = p2st8 := by
  decide

set_option maxRecDepth 8000 in
/-- Re-applying the phase-2 attempt-8 moves. -/
theorem c1_reapply8 : applyTokensState ["U2", "R2", "U2", "R2", "U2"] p2st8 = p2st9 := by
  decide

set_option maxRecDepth 8000 in
/-- Re-applying the phase-2 attempt-9 moves. -/
theorem c1_reapply9 : applyTokensState ["U2", "R2", "U2", "R2", "U2"] p2st9 = p2st10 := by
  decide

set_option maxRecDepth 8000 in
/-- Re-applying the phase-2 attempt-10 moves. -/
theorem c1_reapply10 : applyTokensState ["R2", "U2", "R2", "U2", "R2", "U2", "R2", "U2", "R2", "R2", "U2", "R2", "U2", "R2", "R2", "U2", "U", tUp] p2st10 = p2st11 := by
  decide

set_option maxRecDepth 8000 in
/-- Re-applying the phase-2 attempt-11 moves. -/
theorem c1_reapply11 : applyTokensState ["R2", "U2", "R2", "U2", "R2", "U2", "R2", "U2", "R2", "R2", "U2", "R2", "U2", "R2", "R2", "U2", "U", tUp] p2st11 = p2st12 := by
  decide

set_option maxRecDepth 8000 in
/-- Re-applying the phase-2 attempt-12 moves. -/
theorem c1_reapply12 : applyTokensState ["R2", "U2", "R2", "U2", "R2", "U2", "R2", "U2", "R2", "R2", "U2", "R2", "U2", "R2", "R2", "U2", "U", tUp] p2st12 = p2st13 := by
  decide

set_option maxRecDepth 8000 in
/-- Re-applying the phase-2 attempt-13 moves. -/
theorem c1_reapply13 : applyTokensState ["R2", "U2", "R2", "U2", "R2", "U2", "R2", "U2", "R2", "R2", "U2", "R2", "U2", "R2", "R2", "U2", "U", tUp] p2st13 = p2st14 := by
  decide

set_option maxRecDepth 8000 in
/-- Re-applying the phase-2 attempt-14 moves. -/
theorem c1_reapply14 : applyTokensState ["R2", "U2", "R2", "U2", "R2", "U2", "R2", "U2", "R2", "R2", "U2", "R2", "U2", "R2", "R2", "U2", "U", tUp] p2st14 = p2st15 := by
  decide

set_option maxRecDepth 8000 in
/-- Re-applying the raw move record reproduces the final solver state. -/
theorem c1_reapply_raw : applyTokensState c1RawMoves scrambledU = p2st15 := by
  rw [show c1RawMoves = (["R2", "U2", "R2", "U2", "R2"] ++ (["R2", "U2", "R", "U2", "R2"] ++ (["R2", "U2", "R", "U2", "R2"] ++ (["R2", "U2", "R", "U2", "R2"] ++ (["R2", "U2", "R", "U2", "R2"] ++ (["R2", "U2", "R", "U2", "R2"] ++ (["U2", "R2", "U2", "R2", "U2"] ++ (["U2", "R2", "U2", "R2", "U2"] ++ (["U2", "R2", "U2", "R2", "U2"] ++ (["U2", "R2", "U2", "R2", "U2"] ++ (["U2", "R2", "U2", "R2", "U2"] ++ (["R2", "U2", "R2", "U2", "R2", "U2", "R2", "U2", "R2", "R2", "U2", "R2", "U2", "R2", "R2", "U2", "U", tUp] ++ (["R2", "U2", "R2", "U2", "R2", "U2", "R2", "U2", "R2", "R2", "U2", "R2", "U2", "R2", "R2", "U2", "U", tUp] ++ (["R2", "U2", "R2", "U2", "R2", "U2", "R2", "U2", "R2", "R2", "U2", "R2", "U2", "R2", "R2", "U2", "U", tUp] ++ (["R2", "U2", "R2", "U2", "R2", "U2", "R2", "U2", "R2", "R2", "U2", "R2", "U2", "R2", "R2", "U2", "U", tUp] ++ ["R2", "U2", "R2", "U2", "R2", "U2", "R2", "U2", "R2", "R2", "U2", "R2", "U2", "R2", "R2", "U2", "U", tUp]))))))))))))))) from rfl]
  rw [applyTokensState_append, c1_reapply_p1, applyTokensState_append, c1_reapply0, applyTokensState_append, c1_reapply1, applyTokensState_append, c1_reapply2, applyTokensState_append, c1_reapply3, applyTokensState_append, c1_reapply4, applyTokensState_append, c1_reapply5, applyTokensState_append, c1_reapply6, applyTokensState_append, c1_reapply7, applyTokensState_append, c1_reapply8, applyTokensState_append, c1_reapply9, applyTokensState_append, c1_reapply10, applyTokensState_append, c1_reapply11, applyTokensState_append, c1_reapply12, applyTokensState_append, c1_reapply13, c1_reapply14]

set_option maxRecDepth 8000 in
/-- C1 refutation evidence: scrambling a fresh cube with one oracle-chosen
move (a U turn) produces a state on which `ImprovedSolver.solve` returns a
97-move solution that neither leaves the cube of the solver solved nor, when
re-applied to the scrambled state, produces a solved state — and 97 moves
vastly exceeds the claimed bound of n plus small slack for n = 1. -/
theorem c1_solver_unsound :
    (scramble freshCube 1 solveOracle).1 = ["U"] ∧
    (scramble freshCube 1 solveOracle).2.state = scrambledU ∧
    isSolved scrambledU = false ∧
    improvedSolve scrambledU solveOracle =
      { solution := c1Solution, moveCount := 97, finalCube := p2st15 } ∧
    isSolved p2st15 = false ∧
    isSolved (applyTokensState c1Solution scrambledU) = false ∧
    c1Solution.length = 97 := by
  refine ⟨?_, ?_, by decide, c1_solve_components, by decide, ?_, by decide⟩
  · rw [scramble_eval]
  · rw [scramble_eval]
  · have e1 : applyTokensState c1Solution scrambledU
        = applyTokensState (optimizeMoves c1RawMoves) scrambledU := by
      rw [c1_optimize_eval]
    have e2 : applyTokensState (optimizeMoves c1RawMoves) scrambledU
        = applyTokensState c1RawMoves scrambledU := by
      show applyTokensState (optLoop c1RawMoves.length c1RawMoves) scrambledU = _
      exact optLoop_sem c1RawMoves.length c1RawMoves le_rfl (by decide) scrambledU (by decide)
    rw [e1, e2, c1_reapply_raw]
    decide
